/-
  Verification of the ReadbackCorrect aggregation engine (scripts_v2).

  Shallow embedding of the Python builder scripts into Lean 4:
  rows are association lists of header name to raw cell text, each
  builder is a pure fold over its input rows, and the diagnostics
  dictionaries become structures of natural-number counters.
-/
import Mathlib

set_option maxRecDepth 100000

namespace RBC

/-! ### Python string primitives (ASCII data, as in the NASR extracts) -/

/-- Whitespace characters recognised by Python `str.strip()` (ASCII range). -/
def isWs (c : Char) : Bool :=
  c = ' ' || c = '\t' || c = '\n' || c = '\r' || c = Char.ofNat 11 || c = Char.ofNat 12

/-- Python `str.strip()`. -/
def pstrip (s : String) : String :=
  ⟨((s.data.dropWhile isWs).reverse.dropWhile isWs).reverse⟩

/-- Python `str.upper()` (ASCII case mapping, as exercised by the data). -/
def pupper (s : String) : String :=
  ⟨s.data.map Char.toUpper⟩

/-- A CSV row as produced by `csv.DictReader`: header name to raw text. -/
abbrev Row := List (String × String)

/-- Python `row.get(k)`: first binding for `k`, if any. -/
def rget (r : Row) (k : String) : Option String :=
  (r.find? (fun p => p.1 == k)).map (·.2)

/-- The `_strip` helper shared by the builders: missing, or stripped
nonempty text. -/
def getStrip (r : Row) (k : String) : Option String :=
  match rget r k with
  | none => none
  | some v => let t := pstrip v; if t = "" then none else some t

def isDigitC (c : Char) : Bool := 48 ≤ c.toNat && c.toNat ≤ 57

def digitsVal (l : List Char) : Nat :=
  l.foldl (fun acc c => acc * 10 + (c.toNat - 48)) 0

/-- Python `float(s)` on the plain decimal literals appearing in the
extracts: optional sign, digits, optional point and fraction digits.
Anything else is a parse failure (`ValueError`). -/
def parseDec (s : String) : Option Rat :=
  let cs := s.data
  let (neg, rest) :=
    match cs with
    | '-' :: t => (true, t)
    | '+' :: t => (false, t)
    | t => (false, t)
  let ip := rest.takeWhile isDigitC
  let rem := rest.drop ip.length
  let frac? : Option (List Char) :=
    match rem with
    | [] => some []
    | '.' :: t => if t.all isDigitC then some t else none
    | _ => none
  match frac? with
  | none => none
  | some fp =>
      if ip.length = 0 ∧ fp.length = 0 then none
      else
        let n : Nat := digitsVal ip * 10 ^ fp.length + digitsVal fp
        let q : Rat := (n : Rat) / ((10 : Rat) ^ fp.length)
        some (if neg then -q else q)

/-- Python `round` to an integer: nearest, ties to even. -/
def roundHalfEven (q : Rat) : Int :=
  let f := q.floor
  let r := q - (f : Rat)
  if r < 1 / 2 then f
  else if 1 / 2 < r then f + 1
  else if f % 2 = 0 then f else f + 1

/-- Python `round(x, 3)` on the exact decimal value. -/
def round3 (q : Rat) : Rat := (roundHalfEven (q * 1000) : Rat) / 1000

/-- Python `int(x)` on a float: truncation toward zero. -/
def pyTrunc (q : Rat) : Int :=
  if q < 0 then -(Rat.floor (-q)) else Rat.floor q

/-- `_float_or_none`: parse, `None` on failure or missing text. -/
def pyFloatOpt (o : Option String) : Option Rat := o.bind parseDec

/-- `_int_or_none`: `int(float(s))`, `None` on failure. -/
def pyIntOpt (o : Option String) : Option Int := (pyFloatOpt o).map pyTrunc

def natPad (n : Nat) (width : Nat) : String :=
  let t := toString n
  ⟨List.replicate (width - t.length) '0' ++ t.data⟩

/-- Python `f"{v:.6f}"` on the exact decimal value (ties to even). -/
def format6 (q : Rat) : String :=
  let n := roundHalfEven (q * 1000000)
  let s := n.natAbs
  let sign := if n < 0 then "-" else ""
  sign ++ toString (s / 1000000) ++ "." ++ natPad (s % 1000000) 6

/-! ### SHA-1 (`hashlib.sha1`), over byte lists, words as `Nat` mod `2 ^ 32` -/

/-- UTF-8 encoding of one code point. -/
def utf8Bytes (c : Nat) : List Nat :=
  if c < 128 then [c]
  else if c < 2048 then [192 + c / 64, 128 + c % 64]
  else if c < 65536 then [224 + c / 4096, 128 + c / 64 % 64, 128 + c % 64]
  else [240 + c / 262144, 128 + c / 4096 % 64, 128 + c / 64 % 64, 128 + c % 64]

/-- Python `s.encode("utf-8")`. -/
def strBytes (s : String) : List Nat :=
  s.data.foldr (fun c acc => utf8Bytes c.toNat ++ acc) []

/-- Rotate a 32-bit word left by `k`. -/
def rotl (k n : Nat) : Nat := (n * 2 ^ k + n / 2 ^ (32 - k)) % 2 ^ 32

/-- SHA-1 message padding: `0x80`, zeros to 56 mod 64, 8-byte big-endian
bit length. -/
def sha1Pad (msg : List Nat) : List Nat :=
  let len := msg.length
  let ml := 8 * len
  let zeros := (64 + 56 - (len + 1) % 64) % 64
  msg ++ 128 :: List.replicate zeros 0 ++
    [ml / 2 ^ 56 % 256, ml / 2 ^ 48 % 256, ml / 2 ^ 40 % 256, ml / 2 ^ 32 % 256,
     ml / 2 ^ 24 % 256, ml / 2 ^ 16 % 256, ml / 2 ^ 8 % 256, ml % 256]

def chunksAux : Nat → List Nat → List (List Nat)
  | 0, _ => []
  | _, [] => []
  | fuel + 1, l => l.take 64 :: chunksAux fuel (l.drop 64)

def chunks64 (l : List Nat) : List (List Nat) := chunksAux l.length l

def words16 : List Nat → List Nat
  | b0 :: b1 :: b2 :: b3 :: rest =>
      (((b0 * 256 + b1) * 256 + b2) * 256 + b3) :: words16 rest
  | _ => []

def extendW : Nat → List Nat → List Nat
  | 0, w => w
  | k + 1, w =>
      let i := w.length
      extendW k (w ++ [rotl 1 (w.getD (i - 3) 0 ^^^ w.getD (i - 8) 0 ^^^
        w.getD (i - 14) 0 ^^^ w.getD (i - 16) 0)])

def shaF (t b c d : Nat) : Nat :=
  if t < 20 then b &&& c ||| (b ^^^ 4294967295) &&& d
  else if t < 40 then b ^^^ c ^^^ d
  else if t < 60 then b &&& c ||| b &&& d ||| c &&& d
  else b ^^^ c ^^^ d

def shaK (t : Nat) : Nat :=
  if t < 20 then 1518500249
  else if t < 40 then 1859775393
  else if t < 60 then 2400959708
  else 3395469782

/-- The five 32-bit state words. -/
structure Sha1H where
  h0 : Nat
  h1 : Nat
  h2 : Nat
  h3 : Nat
  h4 : Nat
deriving DecidableEq

def sha1Init : Sha1H := ⟨1732584193, 4023233417, 2562383102, 271733878, 3285377520⟩

def sha1Chunk (h : Sha1H) (chunk : List Nat) : Sha1H :=
  let w := extendW 64 (words16 chunk)
  let fin := (List.range 80).foldl
    (fun (s : Nat × Nat × Nat × Nat × Nat) t =>
      match s with
      | (a, b, c, d, e) =>
          let temp := (rotl 5 a + shaF t b c d + e + shaK t + w.getD t 0) % 2 ^ 32
          (temp, a, rotl 30 b, c, d))
    (h.h0, h.h1, h.h2, h.h3, h.h4)
  match fin with
  | (a, b, c, d, e) =>
      ⟨(h.h0 + a) % 2 ^ 32, (h.h1 + b) % 2 ^ 32, (h.h2 + c) % 2 ^ 32,
       (h.h3 + d) % 2 ^ 32, (h.h4 + e) % 2 ^ 32⟩

def wordBytes (n : Nat) : List Nat := [n / 2 ^ 24 % 256, n / 2 ^ 16 % 256, n / 2 ^ 8 % 256, n % 256]

/-- The 20 digest bytes. -/
def sha1Bytes (msg : List Nat) : List Nat :=
  let h := (chunks64 (sha1Pad msg)).foldl sha1Chunk sha1Init
  wordBytes h.h0 ++ wordBytes h.h1 ++ wordBytes h.h2 ++ wordBytes h.h3 ++ wordBytes h.h4

def hexDigitChar (n : Nat) : Char :=
  if n < 10 then Char.ofNat (48 + n) else Char.ofNat (87 + n)

/-- Python `hexdigest()`: lowercase hex of the 20 digest bytes. -/
def sha1Hex (msg : List Nat) : String :=
  ⟨(sha1Bytes msg).foldr (fun b acc => hexDigitChar (b / 16) :: hexDigitChar (b % 16) :: acc) []⟩

/-! ### Python `dict` as an insertion-ordered association list -/

def dGet [DecidableEq K] : List (K × β) → K → Option β
  | [], _ => none
  | (k', v) :: m, k => if k = k' then some v else dGet m k

def dMem [DecidableEq K] (m : List (K × β)) (k : K) : Bool := (dGet m k).isSome

/-- `d[k] = v`: replace in place when present, else append (Python dict
assignment keeps the key's original position). -/
def dUpd [DecidableEq K] : List (K × β) → K → β → List (K × β)
  | [], k, v => [(k, v)]
  | (k', v') :: m, k, v => if k = k' then (k', v) :: m else (k', v') :: dUpd m k v

/-- In-place mutation of the value stored under `k`, if present. -/
def dModify [DecidableEq K] : List (K × β) → K → (β → β) → List (K × β)
  | [], _, _ => []
  | (k', v) :: m, k, f => if k = k' then (k', f v) :: m else (k', v) :: dModify m k f

def dKeys (m : List (K × β)) : List K := m.map (·.1)

/-! ### Python `sorted` with tuple keys

Sort keys are encoded as `List (List Int)`: each tuple component becomes
one atom, a string as its code points, an integer as a singleton.
Comparison is lexicographic at both levels, exactly Python tuple and
string comparison. -/

abbrev SKey := List (List Int)

def cmpInt (a b : Int) : Ordering := if a < b then .lt else if b < a then .gt else .eq

def cmpLex (cmp : α → α → Ordering) : List α → List α → Ordering
  | [], [] => .eq
  | [], _ :: _ => .lt
  | _ :: _, [] => .gt
  | a :: as, b :: bs =>
      match cmp a b with
      | .eq => cmpLex cmp as bs
      | o => o

def cmpSKey : SKey → SKey → Ordering := cmpLex (cmpLex cmpInt)

def ordLe : Ordering → Bool
  | .gt => false
  | _ => true

/-- A string as a sort-key atom (Python compares strings by code point). -/
def strK (s : String) : List Int := s.data.map (fun c => (c.toNat : Int))

def keyLe (k : α → SKey) (a b : α) : Bool := ordLe (cmpSKey (k a) (k b))

def insertS (le : α → α → Bool) (a : α) : List α → List α
  | [] => [a]
  | b :: l => if le a b then a :: b :: l else b :: insertS le a l

/-- Stable insertion sort (same sorted sequences as Python's stable sort). -/
def insSort (le : α → α → Bool) : List α → List α
  | [] => []
  | a :: l => insertS le a (insSort le l)

def sortByKey (k : α → SKey) (l : List α) : List α := insSort (keyLe k) l

/-- `sorted` on plain strings. -/
def strOneK (s : String) : SKey := [strK s]

/-! ### build_comms.py -/

def SYNTHETIC_KEY_FIELDS : List String :=
  ["COMM_TYPE", "COMM_OUTLET_NAME", "FACILITY_ID", "NAV_ID", "NAV_TYPE",
   "CITY", "STATE_CODE", "REGION_CODE", "COUNTRY_CODE", "LAT_DECIMAL", "LONG_DECIMAL"]

/-- `_canonical_value`: strip, uppercase; empty or missing becomes `""`. -/
def canonicalValue (r : Row) (k : String) : String :=
  match getStrip r k with
  | none => ""
  | some v => pupper v

/-- One joined part of the synthetic key (`LAT_DECIMAL`/`LONG_DECIMAL`
formatted to six decimal places, other fields canonicalized text). -/
def synPart (r : Row) (k : String) : String :=
  if k = "LAT_DECIMAL" ∨ k = "LONG_DECIMAL" then
    match pyFloatOpt (getStrip r k) with
    | some v => format6 v
    | none => ""
  else canonicalValue r k

/-- `_build_synthetic_id`: `SYN:` ++ SHA-1 hex digest of the canonical
joined key. -/
def buildSyntheticId (r : Row) : String :=
  "SYN:" ++ sha1Hex (strBytes (String.intercalate "|" (SYNTHETIC_KEY_FIELDS.map (synPart r))))

structure CommRec where
  outletId : String
  name : Option String
  type : Option String
  state : Option String
  country : Option String
  latitude : Option Rat
  longitude : Option Rat
  artccId : Option String
deriving DecidableEq

structure CommStats where
  totalRowsRead : Nat
  totalWritten : Nat
  writtenWithCommLocId : Nat
  writtenWithSyntheticId : Nat
  skippedParseErrors : Nat
  skippedDuplicateId : Nat
deriving DecidableEq

structure CommState where
  outList : List CommRec
  seenIds : List String
  stats : CommStats
deriving DecidableEq

def commStats0 : CommStats := ⟨0, 0, 0, 0, 0, 0⟩

def commRecOf (r : Row) (outletId : String) : CommRec :=
  let lat := pyFloatOpt (getStrip r "LAT_DECIMAL")
  let lon := pyFloatOpt (getStrip r "LONG_DECIMAL")
  { outletId := outletId
    name := getStrip r "COMM_OUTLET_NAME"
    type := (getStrip r "COMM_OUTLET_TYPE").orElse (fun _ => getStrip r "COMM_TYPE")
    state := getStrip r "STATE_CODE"
    country := getStrip r "COUNTRY_CODE"
    latitude := lat.map round3
    longitude := lon.map round3
    artccId := (getStrip r "ARTCC_ID").orElse (fun _ => getStrip r "FACILITY_ID") }

/-- One iteration of the row loop of `build_comms`. -/
def commsStep (st : CommState) (r : Row) : CommState :=
  let stats := { st.stats with totalRowsRead := st.stats.totalRowsRead + 1 }
  match (getStrip r "COMM_LOC_ID").orElse (fun _ => getStrip r "COM_OUTLET_ID") with
  | none =>
      let sid := buildSyntheticId r
      if st.seenIds.contains sid then
        { st with stats := { stats with skippedDuplicateId := stats.skippedDuplicateId + 1 } }
      else
        { outList := st.outList ++ [commRecOf r sid]
          seenIds := st.seenIds ++ [sid]
          stats := { stats with
            writtenWithSyntheticId := stats.writtenWithSyntheticId + 1
            totalWritten := stats.totalWritten + 1 } }
  | some oid =>
      if st.seenIds.contains oid then
        { st with stats := { stats with skippedDuplicateId := stats.skippedDuplicateId + 1 } }
      else
        { outList := st.outList ++ [commRecOf r oid]
          seenIds := st.seenIds ++ [oid]
          stats := { stats with
            writtenWithCommLocId := stats.writtenWithCommLocId + 1
            totalWritten := stats.totalWritten + 1 } }

/-- `build_comms`: the output list (input order) and diagnostics. -/
def buildComms (rows : List Row) : List CommRec × CommStats :=
  let st := rows.foldl commsStep ⟨[], [], commStats0⟩
  (st.outList, st.stats)

/-- The emit decision in `main` of build_comms.py: refuse to write an
empty output. -/
def commsEmit (rows : List Row) : Except String (List CommRec) :=
  let res := buildComms rows
  if res.1.isEmpty then Except.error "comms output is empty; refusing to write."
  else Except.ok res.1

/-! ### build_navaids.py -/

/-- `normalize_id` of build_navaids.py: strip and uppercase, `None` when
empty. -/
def navNormalizeId (s : String) : Option String :=
  let t := pupper (pstrip s)
  if t = "" then none else some t

structure NavTacan where
  id : Option String
  channel : Option String
  call : Option String
deriving DecidableEq

structure NavFlags where
  hiwas : Option String
  voice : Option String
  tweb : Option String
  fanmarker : Option String
  lahso : Option String
  publicUse : Option String
deriving DecidableEq

structure NavRec where
  identifier : String
  type : String
  name : String
  state : Option String
  country : Option String
  icaoRegion : Option String
  latitude : Rat
  longitude : Rat
  elevationFt : Option Int
  frequencyKhzOrMhz : Option String
  channel : Option String
  status : Option String
  tacan : Option NavTacan
  flags : NavFlags
deriving DecidableEq

structure NavStats where
  totalRowsRead : Nat
  totalWritten : Nat
  skippedMissingIdent : Nat
  skippedMissingLatLon : Nat
  skippedParseErrors : Nat
deriving DecidableEq

structure NavState where
  byId : List (String × NavRec)
  stats : NavStats
deriving DecidableEq

def navStats0 : NavStats := ⟨0, 0, 0, 0, 0⟩

def navRecOf (r : Row) (ident : String) (lat lon : Rat) : NavRec :=
  let name := ((getStrip r "NAV_NAME").orElse (fun _ => getStrip r "NAME")).getD ""
  { identifier := ident
    type := pupper (((getStrip r "NAV_TYPE")).getD "")
    name := pupper name
    state := getStrip r "STATE_CODE"
    country := getStrip r "COUNTRY_CODE"
    icaoRegion := getStrip r "ICAO_REGION_CODE"
    latitude := round3 lat
    longitude := round3 lon
    elevationFt :=
      match getStrip r "ELEV" with
      | none => none
      | some e => pyIntOpt (some e)
    frequencyKhzOrMhz := getStrip r "FREQ"
    channel := getStrip r "CHANNEL"
    status := getStrip r "STATUS_CODE"
    tacan :=
      match getStrip r "TACAN_ID", getStrip r "TACAN_CHAN", getStrip r "TACAN_CALL" with
      | none, none, none => none
      | tid, tch, tca => some ⟨tid, tch, tca⟩
    flags :=
      ⟨getStrip r "HIWAS", getStrip r "VOICE", getStrip r "TWEB",
       getStrip r "FANMARKER", getStrip r "LAHSO", getStrip r "PUBLIC_USE"⟩ }

/-- One iteration of the row loop of `build_navaids`. -/
def navaidsStep (st : NavState) (r : Row) : NavState :=
  let stats := { st.stats with totalRowsRead := st.stats.totalRowsRead + 1 }
  match getStrip r "NAV_ID" with
  | none =>
      { st with stats := { stats with skippedMissingIdent := stats.skippedMissingIdent + 1 } }
  | some identRaw =>
      match navNormalizeId identRaw with
      | none =>
          { st with stats := { stats with skippedMissingIdent := stats.skippedMissingIdent + 1 } }
      | some ident =>
          if dMem st.byId ident then { st with stats := stats }
          else
            match getStrip r "LAT_DECIMAL", getStrip r "LONG_DECIMAL" with
            | none, _ =>
                { st with stats := { stats with skippedMissingLatLon := stats.skippedMissingLatLon + 1 } }
            | _, none =>
                { st with stats := { stats with skippedMissingLatLon := stats.skippedMissingLatLon + 1 } }
            | some latS, some lonS =>
                match parseDec latS, parseDec lonS with
                | some lat, some lon =>
                    { byId := dUpd st.byId ident (navRecOf r ident lat lon)
                      stats := { stats with totalWritten := stats.totalWritten + 1 } }
                | _, _ =>
                    { st with stats := { stats with skippedParseErrors := stats.skippedParseErrors + 1 } }

/-- `build_navaids`: entities sorted by identifier, plus diagnostics. -/
def buildNavaids (rows : List Row) : List NavRec × NavStats :=
  let st := rows.foldl navaidsStep ⟨[], navStats0⟩
  ((sortByKey strOneK (dKeys st.byId)).filterMap (fun k => dGet st.byId k), st.stats)

/-! ### build_airports.py -/

def isUpperAlnum (c : Char) : Bool := (65 ≤ c.toNat && c.toNat ≤ 90) || isDigitC c

/-- The shape `^K[A-Z0-9]{2,3}$` accepted by `normalize_id` of
build_airports.py. -/
def kShape (t : String) : Bool :=
  match t.data with
  | 'K' :: rest => rest.all isUpperAlnum && (rest.length = 2 || rest.length = 3)
  | _ => false

/-- `normalize_id` of build_airports.py. -/
def normalizeId (s : Option String) : Option String :=
  match s with
  | none => none
  | some v =>
      let t := pupper (pstrip v)
      if t = "" ∨ t.length < 3 ∨ 4 < t.length then none
      else if kShape t then some t else none

/-- `_pick`: first listed column present in the row with nonempty
stripped text. -/
def pick (r : Row) (cols : List String) : Option String :=
  cols.findSome? (fun c => getStrip r c)

def FREQ_TYPE_MAP : List (String × String) :=
  [("CLD", "clearance"), ("CLR", "clearance"), ("CLEARANCE", "clearance"),
   ("GND", "ground"), ("GROUND", "ground"),
   ("TWR", "tower"), ("TOWER", "tower"),
   ("DEP", "departure"), ("DEPARTURE", "departure")]

def takeStr (n : Nat) (s : String) : String := ⟨s.data.take n⟩

/-- `resolve` of build_airports.py: exact header, then alternates in
order, then case-insensitive over canonical name and alternates; the
error carries the canonical field name and the header list. -/
def resolve (fns : List String) (required : String) (alts : List String) :
    Except (String × List String) String :=
  if fns.contains required then .ok required
  else
    match alts.find? (fun a => fns.contains a) with
    | some a => .ok a
    | none =>
        match (required :: alts).findSome? (fun n => (fns.reverse.find? (fun h => pupper h == pupper n))) with
        | some h => .ok h
        | none => .error (required, fns)

structure AirportCols where
  arptId : String
  icaoId : String
  name : String
  city : String
  state : String
  lat : String
  lon : String
  elev : String
deriving DecidableEq

structure AirportRec where
  identifier : String
  icaoId : Option String
  name : String
  city : String
  state : String
  latitude : Rat
  longitude : Rat
  elevationFt : Option Int
  runways : List String
  frequencies : List (String × List String)
deriving DecidableEq

structure AirportStats where
  rowsRead : Nat
  written : Nat
  skippedMissingIdent : Nat
  skippedMissingLatLon : Nat
  skippedMissingName : Nat
  skippedFiltered : Nat
  skippedParseErrors : Nat
  usedDefaultLatLon : Nat
  usedDefaultName : Nat
  usedDefaultState : Nat
deriving DecidableEq

structure AirportState where
  byId : List (String × AirportRec)
  stats : AirportStats
deriving DecidableEq

def airportStats0 : AirportStats := ⟨0, 0, 0, 0, 0, 0, 0, 0, 0, 0⟩

/-- The airport entity built from one accepted primary row. -/
def airportsEntOf (lid icao nameSrc city stateSrc : String) (lat lon : Rat)
    (elev : Option Int) : AirportRec :=
  { identifier := lid
    icaoId := if icao = "" then none else some icao
    name := pupper nameSrc
    city := pupper city
    state := pupper stateSrc
    latitude := round3 lat
    longitude := round3 lon
    elevationFt := elev
    runways := []
    frequencies := [] }

/-- One iteration of the primary (APT_BASE) row loop of
`build_airports`. -/
def airportsRowStep (c : AirportCols) (st : AirportState) (r : Row) : AirportState :=
  let stats := { st.stats with rowsRead := st.stats.rowsRead + 1 }
  let lid := pupper (pstrip ((rget r c.arptId).getD ""))
  let icao := pupper (pstrip ((rget r c.icaoId).getD ""))
  if lid = "" then
    { st with stats := { stats with skippedMissingIdent := stats.skippedMissingIdent + 1 } }
  else
    let latRaw := pstrip ((rget r c.lat).getD "")
    let lonRaw := pstrip ((rget r c.lon).getD "")
    if latRaw = "" ∨ lonRaw = "" then
      { st with stats := { stats with skippedMissingLatLon := stats.skippedMissingLatLon + 1 } }
    else
      match parseDec latRaw, parseDec lonRaw with
      | some lat, some lon =>
          let nameSrc := pstrip ((rget r c.name).getD "")
          let stats := if nameSrc = "" then { stats with usedDefaultName := stats.usedDefaultName + 1 } else stats
          let city := pstrip ((rget r c.city).getD "")
          let stateSrc := pstrip ((rget r c.state).getD "")
          let stats := if stateSrc = "" then { stats with usedDefaultState := stats.usedDefaultState + 1 } else stats
          let elevRaw := pstrip ((rget r c.elev).getD "")
          let (stats, elev) :=
            if elevRaw = "" then (stats, none)
            else
              match parseDec elevRaw with
              | some q => (stats, some (roundHalfEven q))
              | none => ({ stats with skippedParseErrors := stats.skippedParseErrors + 1 }, none)
          { byId := dUpd st.byId lid (airportsEntOf lid icao nameSrc city stateSrc lat lon elev)
            stats := { stats with written := stats.written + 1 } }
      | _, _ =>
          { st with stats := { stats with skippedParseErrors := stats.skippedParseErrors + 1 } }

def RWY_ID_COLS : List String := ["ARPT_ID", "IDENT", "LOCID", "SITE_NUMBER"]
def RWY_NUM_COLS : List String := ["RWY_ID", "RUNWAY_ID", "BASE_RWY", "IDENT"]

/-- One iteration of the runway-CSV loop of `build_airports`. -/
def airportsRwyStep (m : List (String × AirportRec)) (r : Row) : List (String × AirportRec) :=
  match normalizeId (pick r RWY_ID_COLS) with
  | none => m
  | some aid =>
      if dMem m aid then
        let rwy := pupper (pstrip ((pick r RWY_NUM_COLS).getD ""))
        if rwy = "" then m
        else
          dModify m aid (fun ent =>
            if ent.runways.contains rwy then ent
            else { ent with runways := ent.runways ++ [rwy] })
      else m

def FREQ_ID_COLS : List String := ["ARPT_ID", "IDENT", "LOCID", "SITE_NUMBER"]
def FREQ_TYPE_COLS : List String := ["TYPE", "FREQ_TYPE", "FACILITY_TYPE"]
def FREQ_VAL_COLS : List String := ["FREQ", "FREQUENCY", "FREQ_VALUE"]

/-- The frequency-text shape accepted by the build: three digits, a
point, one to three digits. -/
def freqValOk (s : String) : Bool :=
  let cs := s.data
  5 ≤ cs.length && cs.length ≤ 7 && (cs.take 3).all isDigitC &&
    cs.getD 3 ' ' = '.' && (cs.drop 4).all isDigitC

/-- One iteration of the frequency-CSV loop of `build_airports`. -/
def airportsFreqStep (m : List (String × AirportRec)) (r : Row) : List (String × AirportRec) :=
  match normalizeId (pick r FREQ_ID_COLS) with
  | none => m
  | some aid =>
      if dMem m aid then
        let rawType := pupper (pstrip ((pick r FREQ_TYPE_COLS).getD ""))
        match (dGet FREQ_TYPE_MAP rawType).orElse (fun _ => dGet FREQ_TYPE_MAP (takeStr 3 rawType)) with
        | none => m
        | some key =>
            if key = "clearance" ∨ key = "ground" ∨ key = "tower" ∨ key = "departure" then
              let fv := pstrip ((pick r FREQ_VAL_COLS).getD "")
              if fv ≠ "" ∧ freqValOk fv then
                dModify m aid (fun ent =>
                  let fs := if dMem ent.frequencies key then ent.frequencies else ent.frequencies ++ [(key, [])]
                  let fs := dModify fs key (fun l => if l.contains fv then l else l ++ [fv])
                  { ent with frequencies := fs })
              else m
            else m
      else m

/-- The post-pass of `build_airports`: sort each runway list, drop empty
frequency lists. -/
def airportsPost (m : List (String × AirportRec)) : List (String × AirportRec) :=
  m.map (fun p =>
    (p.1, { p.2 with
      runways := sortByKey strOneK p.2.runways
      frequencies := p.2.frequencies.filter (fun q => ¬ q.2.isEmpty) }))

/-- `build_airports`: header resolution (fatal on failure, before any
row), primary pass, runway and frequency joins, post-pass, sorted
output. -/
def buildAirports (fns : List String) (rows rwyRows freqRows : List Row) :
    Except (String × List String) (List AirportRec × AirportStats) := do
  let cArpt ← resolve fns "ARPT_ID" []
  let cIcao ← resolve fns "ICAO_ID" ["ICAO"]
  let cName ← resolve fns "ARPT_NAME" ["NAME"]
  let cCity ← resolve fns "CITY" []
  let cState ← resolve fns "STATE_CODE" []
  let cLat ← resolve fns "LAT_DECIMAL" []
  let cLon ← resolve fns "LONG_DECIMAL" []
  let cElev ← resolve fns "ELEV" []
  let cols : AirportCols := ⟨cArpt, cIcao, cName, cCity, cState, cLat, cLon, cElev⟩
  let st := rows.foldl (airportsRowStep cols) ⟨[], airportStats0⟩
  let m := rwyRows.foldl airportsRwyStep st.byId
  let m := freqRows.foldl airportsFreqStep m
  let m := airportsPost m
  pure ((sortByKey strOneK (dKeys m)).filterMap (fun k => dGet m k), st.stats)

/-! ### build_ils.py -/

abbrev IlsKey := String × String × String

/-- `_all_keys`: every nonempty stripped text value of the row, in
header order. -/
def allKeys (r : Row) : List (String × String) :=
  r.filterMap (fun p =>
    let t := pstrip p.2
    if t = "" then none else some (p.1, t))

structure IlsRec where
  airportIdentifier : String
  runwayId : String
  ident : String
  frequency : Option String
  latitude : Option Rat
  longitude : Option Rat
  dme : List (List (String × String))
  gs : List (List (String × String))
  markers : List (List (String × String))
deriving DecidableEq

structure IlsStats where
  baseRows : Nat
  dmeRows : Nat
  gsRows : Nat
  mkrRows : Nat
  written : Nat
  skippedMissingKey : Nat
deriving DecidableEq

structure IlsState where
  byKey : List (IlsKey × IlsRec)
  stats : IlsStats
deriving DecidableEq

def ilsStats0 : IlsStats := ⟨0, 0, 0, 0, 0, 0⟩

/-- `base_key`: airport, runway end, localizer id (the base pass accepts
a `KEY` alternate for the localizer column). -/
def ilsBaseKey (r : Row) : Option IlsKey :=
  let arpt := (getStrip r "ARPT_ID").orElse (fun _ => getStrip r "LOCATION_ID")
  let rwy := ((getStrip r "RWY_END_ID").orElse (fun _ => getStrip r "RWY_ID")).orElse
    (fun _ => getStrip r "RUNWAY_ID")
  let loc := (((getStrip r "ILS_LOC_ID").orElse (fun _ => getStrip r "ILS_ID")).orElse
    (fun _ => getStrip r "LOC_ID")).orElse (fun _ => getStrip r "KEY")
  match arpt, rwy with
  | some a, some w => some (pupper a, pupper w, pupper (loc.getD ""))
  | _, _ => none

/-- `dme_key`, shared by the DME, glide-slope and marker passes. -/
def ilsDmeKey (r : Row) : Option IlsKey :=
  let arpt := (getStrip r "ARPT_ID").orElse (fun _ => getStrip r "LOCATION_ID")
  let rwy := ((getStrip r "RWY_END_ID").orElse (fun _ => getStrip r "RWY_ID")).orElse
    (fun _ => getStrip r "RUNWAY_ID")
  let loc := ((getStrip r "ILS_LOC_ID").orElse (fun _ => getStrip r "ILS_ID")).orElse
    (fun _ => getStrip r "LOC_ID")
  match arpt, rwy with
  | some a, some w => some (pupper a, pupper w, pupper (loc.getD ""))
  | _, _ => none

/-- One iteration of the ILS_BASE row loop of `build_ils`. -/
def ilsBaseStep (st : IlsState) (r : Row) : IlsState :=
  let stats := { st.stats with baseRows := st.stats.baseRows + 1 }
  match ilsBaseKey r with
  | none =>
      { st with stats := { stats with skippedMissingKey := stats.skippedMissingKey + 1 } }
  | some key =>
      if dMem st.byKey key then { st with stats := stats }
      else
        let lat := pyFloatOpt (getStrip r "LAT_DECIMAL")
        let lon := pyFloatOpt (getStrip r "LONG_DECIMAL")
        let ent : IlsRec :=
          { airportIdentifier := key.1
            runwayId := key.2.1
            ident :=
              if key.2.2 = "" then
                (((getStrip r "ILS_LOC_ID").orElse (fun _ => getStrip r "ILS_ID")).orElse
                  (fun _ => getStrip r "LOC_ID")).getD ""
              else key.2.2
            frequency := (getStrip r "LOC_FREQ").orElse (fun _ => getStrip r "FREQ")
            latitude := lat.map round3
            longitude := lon.map round3
            dme := []
            gs := []
            markers := [] }
        { byKey := dUpd st.byKey key ent
          stats := { stats with written := stats.written + 1 } }

/-- The fallback linear scan: update the first entity, in the map's
current (insertion) order, whose airport and runway match. -/
def ilsFallback (key : IlsKey) (upd : IlsRec → IlsRec) :
    List (IlsKey × IlsRec) → List (IlsKey × IlsRec)
  | [] => []
  | (k, v) :: m =>
      if k.1 = key.1 ∧ k.2.1 = key.2.1 then (k, upd v) :: m
      else (k, v) :: ilsFallback key upd m

/-- One iteration of a component (DME/GS/marker) row loop of
`build_ils`: exact key first, else the fallback scan, else the row is
dropped with no counter. -/
def ilsCompStep (bump : IlsStats → IlsStats) (add : IlsRec → List (String × String) → IlsRec)
    (st : IlsState) (r : Row) : IlsState :=
  let stats := bump st.stats
  match ilsDmeKey r with
  | none => { st with stats := stats }
  | some key =>
      if dMem st.byKey key then
        { byKey := dModify st.byKey key (fun v => add v (allKeys r)), stats := stats }
      else
        { byKey := ilsFallback key (fun v => add v (allKeys r)) st.byKey, stats := stats }

def addDme (v : IlsRec) (c : List (String × String)) : IlsRec := { v with dme := v.dme ++ [c] }
def addGs (v : IlsRec) (c : List (String × String)) : IlsRec := { v with gs := v.gs ++ [c] }
def addMkr (v : IlsRec) (c : List (String × String)) : IlsRec := { v with markers := v.markers ++ [c] }

def bumpDme (s : IlsStats) : IlsStats := { s with dmeRows := s.dmeRows + 1 }
def bumpGs (s : IlsStats) : IlsStats := { s with gsRows := s.gsRows + 1 }
def bumpMkr (s : IlsStats) : IlsStats := { s with mkrRows := s.mkrRows + 1 }

def ilsKeyK (k : IlsKey) : SKey := [strK k.1, strK k.2.1, strK k.2.2]

/-- `build_ils`: base pass, three component joins, output sorted by the
composite key. -/
def buildIls (baseRows dmeRows gsRows mkrRows : List Row) : List IlsRec × IlsStats :=
  let st := baseRows.foldl ilsBaseStep ⟨[], ilsStats0⟩
  let st := dmeRows.foldl (ilsCompStep bumpDme addDme) st
  let st := gsRows.foldl (ilsCompStep bumpGs addGs) st
  let st := mkrRows.foldl (ilsCompStep bumpMkr addMkr) st
  ((sortByKey ilsKeyK (dKeys st.byKey)).filterMap (fun k => dGet st.byKey k), st.stats)

/-! ### build_runways.py -/

abbrev RwyKey := String × String

structure RwyEnd where
  endId : String
  latitude : Option Rat
  longitude : Option Rat
  elevationFt : Option Rat
  trueAlignment : Option String
  ilsType : Option String
  displacedThresholdFt : Option Int
  tdzElevFt : Option Rat
deriving DecidableEq

structure RwyRec where
  airportIdentifier : String
  runwayId : String
  lengthFt : Option Int
  widthFt : Option Int
  surface : Option String
  lighting : Option String
  ends : List RwyEnd
deriving DecidableEq

structure RwyStats where
  totalRowsRead : Nat
  totalEndRowsRead : Nat
  totalWritten : Nat
  skippedMissingArptRwy : Nat
  skippedParseErrors : Nat
deriving DecidableEq

structure RwyState where
  runways : List (RwyKey × RwyRec)
  stats : RwyStats
deriving DecidableEq

def rwyStats0 : RwyStats := ⟨0, 0, 0, 0, 0⟩

/-- One iteration of the APT_RWY row loop of `build_runways`. -/
def runwaysRowStep (st : RwyState) (r : Row) : RwyState :=
  let stats := { st.stats with totalRowsRead := st.stats.totalRowsRead + 1 }
  match getStrip r "ARPT_ID", getStrip r "RWY_ID" with
  | some arpt0, some rwy0 =>
      let arpt := pupper arpt0
      let rwyId := pupper rwy0
      let key : RwyKey := (arpt, rwyId)
      if dMem st.runways key then { st with stats := stats }
      else
        let ent : RwyRec :=
          { airportIdentifier := arpt
            runwayId := rwyId
            lengthFt := pyIntOpt (getStrip r "RWY_LEN")
            widthFt := pyIntOpt (getStrip r "RWY_WIDTH")
            surface := getStrip r "SURFACE_TYPE_CODE"
            lighting := getStrip r "RWY_LGT_CODE"
            ends := [] }
        { runways := dUpd st.runways key ent
          stats := { stats with totalWritten := stats.totalWritten + 1 } }
  | _, _ =>
      { st with stats := { stats with skippedMissingArptRwy := stats.skippedMissingArptRwy + 1 } }

/-- Python `a or b` over an optional float and an optional int: the
float value unless it is `None` or `0.0`, in which case the truncated
parse (an equal rational) is used. -/
def orFloatInt (f : Option Rat) (i : Option Int) : Option Rat :=
  match f with
  | some q => if q = 0 then (i.map (fun z => (z : Rat))) else some q
  | none => i.map (fun z => (z : Rat))

/-- One iteration of the APT_RWY_END row loop of `build_runways`: no
fallback, silent drop when the composite key is absent. -/
def runwaysEndStep (st : RwyState) (r : Row) : RwyState :=
  let stats := { st.stats with totalEndRowsRead := st.stats.totalEndRowsRead + 1 }
  match getStrip r "ARPT_ID", getStrip r "RWY_ID" with
  | some arpt0, some rwy0 =>
      let key : RwyKey := (pupper arpt0, pupper rwy0)
      if dMem st.runways key then
        let e : RwyEnd :=
          { endId := (getStrip r "RWY_END_ID").getD ""
            latitude := (pyFloatOpt (getStrip r "LAT_DECIMAL")).map round3
            longitude := (pyFloatOpt (getStrip r "LONG_DECIMAL")).map round3
            elevationFt := orFloatInt (pyFloatOpt (getStrip r "RWY_END_ELEV")) (pyIntOpt (getStrip r "RWY_END_ELEV"))
            trueAlignment := getStrip r "TRUE_ALIGNMENT"
            ilsType := getStrip r "ILS_TYPE"
            displacedThresholdFt := pyIntOpt (getStrip r "DISPLACED_THR_LEN")
            tdzElevFt := orFloatInt (pyFloatOpt (getStrip r "TDZ_ELEV")) (pyIntOpt (getStrip r "TDZ_ELEV")) }
        { runways := dModify st.runways key (fun v => { v with ends := v.ends ++ [e] })
          stats := stats }
      else { st with stats := stats }
  | _, _ => { st with stats := stats }

def rwyKeyK (k : RwyKey) : SKey := [strK k.1, strK k.2]

def endKeyK (e : RwyEnd) : SKey := [strK e.endId]

/-- `build_runways`: primary pass, end join, output sorted by
(airport, runway) with each end list sorted by end id. -/
def buildRunways (rwyRows endRows : List Row) : List RwyRec × RwyStats :=
  let st := rwyRows.foldl runwaysRowStep ⟨[], rwyStats0⟩
  let st := endRows.foldl runwaysEndStep st
  ((sortByKey rwyKeyK (dKeys st.runways)).filterMap (fun k =>
      (dGet st.runways k).map (fun v => { v with ends := sortByKey endKeyK v.ends })),
   st.stats)

/-- The emit decision in `main` of build_runways.py. -/
def runwaysEmit (rwyRows endRows : List Row) : Except String (List RwyRec) :=
  let res := buildRunways rwyRows endRows
  if res.1.isEmpty then Except.error "runways output is empty; refusing to write."
  else Except.ok res.1

/-! ### build_airways.py -/

structure AwySeg where
  seq : Option Int
  fixId : Option String
  fixType : Option String
  navId : Option String
  navType : Option String
  artcc : Option String
  mea : Option String
  moca : Option String
  minAlt : Option String
  maxAlt : Option String
  direction : Option String
deriving DecidableEq

structure AwyRec where
  airwayId : String
  type : Option String
  level : Option String
  status : Option String
  segments : List AwySeg
deriving DecidableEq

structure AwyStats where
  baseRowsRead : Nat
  segRowsRead : Nat
  baseWritten : Nat
  segmentsAdded : Nat
  skippedMissingAwyId : Nat
deriving DecidableEq

structure AwyState where
  airways : List (String × AwyRec)
  stats : AwyStats
deriving DecidableEq

def awyStats0 : AwyStats := ⟨0, 0, 0, 0, 0⟩

/-- One iteration of the AWY_BASE row loop of `build_airways`. -/
def airwaysBaseStep (st : AwyState) (r : Row) : AwyState :=
  let stats := { st.stats with baseRowsRead := st.stats.baseRowsRead + 1 }
  match getStrip r "AWY_ID" with
  | none =>
      { st with stats := { stats with skippedMissingAwyId := stats.skippedMissingAwyId + 1 } }
  | some awy0 =>
      let awyId := pupper awy0
      if dMem st.airways awyId then { st with stats := stats }
      else
        let ent : AwyRec :=
          { airwayId := awyId
            type := getStrip r "AWY_TYPE"
            level := getStrip r "AWY_LEVEL"
            status := getStrip r "STATUS_CODE"
            segments := [] }
        { airways := dUpd st.airways awyId ent
          stats := { stats with baseWritten := stats.baseWritten + 1 } }

def awySegOf (r : Row) : AwySeg :=
  { seq := pyIntOpt (getStrip r "SEQNO")
    fixId := getStrip r "FIX_ID"
    fixType := getStrip r "FIX_TYPE"
    navId := getStrip r "NAV_ID"
    navType := getStrip r "NAV_TYPE"
    artcc := getStrip r "ARTCC_ID"
    mea := getStrip r "MEA"
    moca := getStrip r "MOCA"
    minAlt := getStrip r "MIN_ALT"
    maxAlt := getStrip r "MAX_ALT"
    direction := getStrip r "DIRECTION" }

/-- One iteration of the AWY_SEG_ALT row loop of `build_airways`:
segments append without any value-level deduplication. -/
def airwaysSegStep (st : AwyState) (r : Row) : AwyState :=
  let stats := { st.stats with segRowsRead := st.stats.segRowsRead + 1 }
  match getStrip r "AWY_ID" with
  | none => { st with stats := stats }
  | some awy0 =>
      let awyId := pupper awy0
      if dMem st.airways awyId then
        { airways := dModify st.airways awyId (fun v => { v with segments := v.segments ++ [awySegOf r] })
          stats := { stats with segmentsAdded := stats.segmentsAdded + 1 } }
      else { st with stats := stats }

/-- The segment sort key: sequence number with `-1` standing in for an
absent one, then fix id, then nav id. -/
def segKeyK (s : AwySeg) : SKey :=
  [[s.seq.getD (-1)], strK (s.fixId.getD ""), strK (s.navId.getD "")]

/-- `build_airways`: base pass, segment join, output sorted by airway id
with each segment list sorted by `segKeyK`. -/
def buildAirways (baseRows segRows : List Row) : List AwyRec × AwyStats :=
  let st := baseRows.foldl airwaysBaseStep ⟨[], awyStats0⟩
  let st := segRows.foldl airwaysSegStep st
  ((sortByKey strOneK (dKeys st.airways)).filterMap (fun k =>
      (dGet st.airways k).map (fun v => { v with segments := sortByKey segKeyK v.segments })),
   st.stats)

/-! ### Concrete input fixtures used to settle the claims -/

def aptHeaders : List String :=
  ["ARPT_ID", "ICAO_ID", "ARPT_NAME", "CITY", "STATE_CODE", "LAT_DECIMAL", "LONG_DECIMAL", "ELEV"]

def aptRow (nm : String) : Row :=
  [("ARPT_ID", "ABC"), ("ICAO_ID", ""), ("ARPT_NAME", nm), ("CITY", "X"),
   ("STATE_CODE", "MN"), ("LAT_DECIMAL", "44.5"), ("LONG_DECIMAL", "-93.2"), ("ELEV", "100")]

def aptNonKRow : Row :=
  [("ARPT_ID", "3M3"), ("ICAO_ID", ""), ("ARPT_NAME", "N"), ("CITY", ""),
   ("STATE_CODE", ""), ("LAT_DECIMAL", "1"), ("LONG_DECIMAL", "2"), ("ELEV", "")]

def aptChildRow : Row := [("ARPT_ID", "3M3"), ("RWY_ID", "12/30")]

def navRow (nm : String) : Row :=
  [("NAV_ID", "MSP"), ("NAV_NAME", nm), ("LAT_DECIMAL", "44"), ("LONG_DECIMAL", "-93")]

def commRowId (i : String) : Row := [("COMM_LOC_ID", i)]

def commScenarioRow : Row :=
  [("COMM_LOC_ID", ""), ("COMM_TYPE", "TWR"), ("COMM_OUTLET_NAME", "APPROACH"),
   ("LAT_DECIMAL", "40.123456"), ("LONG_DECIMAL", "-80.654321")]

def ilsBaseRow (loc : String) : Row :=
  [("ARPT_ID", "KMSP"), ("RWY_END_ID", "12"), ("ILS_LOC_ID", loc)]

def ilsDmeRow : Row :=
  [("ARPT_ID", "KMSP"), ("RWY_END_ID", "12"), ("ILS_LOC_ID", "B"), ("CHANNEL", "022X")]

def ilsDmeRow2 : Row :=
  [("ARPT_ID", "KMSP"), ("RWY_END_ID", "12"), ("ILS_LOC_ID", "B"), ("CHANNEL", "011X")]

def ilsDmeFarRow : Row := [("ARPT_ID", "KXYZ"), ("RWY_END_ID", "12"), ("ILS_LOC_ID", "B")]

def rwyBaseRow : Row := [("ARPT_ID", "KMSP"), ("RWY_ID", "12/30")]

def rwyEndRowMismatch : Row := [("ARPT_ID", "KMSP"), ("RWY_ID", "12"), ("RWY_END_ID", "12")]

def awyBaseRow : Row := [("AWY_ID", "V2")]

def awySegRow : Row := [("AWY_ID", "V2"), ("SEQNO", "10"), ("FIX_ID", "ABC")]

def ilsEntZ : IlsRec :=
  { airportIdentifier := "KMSP", runwayId := "12", ident := "Z", frequency := none,
    latitude := none, longitude := none, dme := [], gs := [], markers := [] }

/-! ### The emit decisions of the remaining mains -/

/-- The emit decision in `main` of build_navaids.py: refuse to write an
empty output. -/
def navaidsEmit (rows : List Row) : Except String (List NavRec) :=
  let res := buildNavaids rows
  if res.1.isEmpty then Except.error "navaids output is empty; refusing to write."
  else Except.ok res.1

/-- The emit decision in `main` of build_ils.py: refuse to write an
empty output. -/
def ilsEmit (baseRows dmeRows gsRows mkrRows : List Row) : Except String (List IlsRec) :=
  let res := buildIls baseRows dmeRows gsRows mkrRows
  if res.1.isEmpty then Except.error "ils output is empty; refusing to write."
  else Except.ok res.1

/-- The emit decision in `main` of build_airways.py: refuse to write an
empty output. -/
def airwaysEmit (baseRows segRows : List Row) : Except String (List AwyRec) :=
  let res := buildAirways baseRows segRows
  if res.1.isEmpty then Except.error "airways output is empty; refusing to write."
  else Except.ok res.1

/-- The emit decision in `main` of build_airports.py: the output list is
written unconditionally — there is no empty-output guard. -/
def airportsEmit (fns : List String) (rows rwyRows freqRows : List Row) :
    Except (String × List String) (List AirportRec) :=
  (buildAirports fns rows rwyRows freqRows).map (fun p => p.1)

/-! ## Order and sorting lemmas -/

theorem cmpInt_eq_iff (a b : Int) : cmpInt a b = .eq ↔ a = b := by
  rcases lt_trichotomy a b with h | h | h
  · simp [cmpInt, h, h.ne]
  · subst h; simp [cmpInt, lt_irrefl]
  · simp [cmpInt, h, lt_asymm h, h.ne']

theorem cmpInt_swap (a b : Int) : cmpInt a b = (cmpInt b a).swap := by
  rcases lt_trichotomy a b with h | h | h
  · simp [cmpInt, h, lt_asymm h, Ordering.swap]
  · subst h; simp [cmpInt, lt_irrefl, Ordering.swap]
  · simp [cmpInt, h, lt_asymm h, Ordering.swap]

theorem cmpInt_lt_iff (a b : Int) : cmpInt a b = .lt ↔ a < b := by
  rcases lt_trichotomy a b with h | h | h
  · simp [cmpInt, h]
  · subst h; simp [cmpInt, lt_irrefl]
  · simp [cmpInt, h, lt_asymm h, h.ne']

theorem cmpInt_lt_trans {a b c : Int} (h1 : cmpInt a b = .lt) (h2 : cmpInt b c = .lt) :
    cmpInt a c = .lt :=
  (cmpInt_lt_iff a c).2 (lt_trans ((cmpInt_lt_iff a b).1 h1) ((cmpInt_lt_iff b c).1 h2))

theorem cmpLex_eq_iff {cmp : α → α → Ordering} (hc : ∀ a b, cmp a b = .eq ↔ a = b) :
    ∀ x y, cmpLex cmp x y = .eq ↔ x = y := by
  intro x
  induction x with
  | nil => intro y; cases y <;> simp [cmpLex]
  | cons a as ih =>
    intro y
    cases y with
    | nil => simp [cmpLex]
    | cons b bs =>
      cases hab : cmp a b with
      | eq =>
          have hb : a = b := (hc a b).1 hab
          subst hb
          simp [cmpLex, hab, ih bs]
      | lt =>
          constructor
          · intro h; simp [cmpLex, hab] at h
          · intro h
            injection h with h1 h2
            subst h1
            rw [(hc a a).2 rfl] at hab
            cases hab
      | gt =>
          constructor
          · intro h; simp [cmpLex, hab] at h
          · intro h
            injection h with h1 h2
            subst h1
            rw [(hc a a).2 rfl] at hab
            cases hab

theorem cmpLex_swap {cmp : α → α → Ordering} (hs : ∀ a b, cmp a b = (cmp b a).swap) :
    ∀ x y, cmpLex cmp x y = (cmpLex cmp y x).swap := by
  intro x
  induction x with
  | nil => intro y; cases y <;> simp [cmpLex, Ordering.swap]
  | cons a as ih =>
    intro y
    cases y with
    | nil => simp [cmpLex, Ordering.swap]
    | cons b bs =>
      cases hba : cmp b a with
      | eq =>
          have hab : cmp a b = .eq := by rw [hs a b, hba]; rfl
          simp [cmpLex, hab, hba, ih bs]
      | lt =>
          have hab : cmp a b = .gt := by rw [hs a b, hba]; rfl
          simp [cmpLex, hab, hba, Ordering.swap]
      | gt =>
          have hab : cmp a b = .lt := by rw [hs a b, hba]; rfl
          simp [cmpLex, hab, hba, Ordering.swap]

theorem cmpLex_lt_trans {cmp : α → α → Ordering}
    (hc : ∀ a b, cmp a b = .eq ↔ a = b)
    (ht : ∀ a b c, cmp a b = .lt → cmp b c = .lt → cmp a c = .lt) :
    ∀ x y z, cmpLex cmp x y = .lt → cmpLex cmp y z = .lt → cmpLex cmp x z = .lt := by
  intro x
  induction x with
  | nil =>
    intro y z h1 h2
    cases y with
    | nil => simp [cmpLex] at h1
    | cons b bs =>
      cases z with
      | nil => simp [cmpLex] at h2
      | cons c cs => simp [cmpLex]
  | cons a as ih =>
    intro y z h1 h2
    cases y with
    | nil => simp [cmpLex] at h1
    | cons b bs =>
      cases z with
      | nil => simp [cmpLex] at h2
      | cons c cs =>
        cases hab : cmp a b with
        | gt => simp [cmpLex, hab] at h1
        | lt =>
          cases hbc : cmp b c with
          | gt => simp [cmpLex, hbc] at h2
          | lt => simp [cmpLex, ht a b c hab hbc]
          | eq =>
            have hb : b = c := (hc b c).1 hbc
            subst hb
            simp [cmpLex, hab]
        | eq =>
          have hb : a = b := (hc a b).1 hab
          subst hb
          cases hac : cmp a c with
          | gt => simp [cmpLex, hac] at h2
          | lt => simp [cmpLex, hac]
          | eq =>
            simp only [cmpLex, hab] at h1
            simp only [cmpLex, hac] at h2
            simp only [cmpLex, hac]
            exact ih bs cs h1 h2

theorem cmpSKey_eq_iff (x y : SKey) : cmpSKey x y = .eq ↔ x = y :=
  cmpLex_eq_iff (cmpLex_eq_iff cmpInt_eq_iff) x y

theorem cmpSKey_swap (x y : SKey) : cmpSKey x y = (cmpSKey y x).swap :=
  cmpLex_swap (cmpLex_swap cmpInt_swap) x y

theorem cmpSKey_lt_trans {x y z : SKey} (h1 : cmpSKey x y = .lt) (h2 : cmpSKey y z = .lt) :
    cmpSKey x z = .lt :=
  cmpLex_lt_trans (cmpLex_eq_iff cmpInt_eq_iff)
    (cmpLex_lt_trans cmpInt_eq_iff (fun _ _ _ ha hb => cmpInt_lt_trans ha hb)) x y z h1 h2

theorem ordLe_cmpSKey_iff (x y : SKey) :
    ordLe (cmpSKey x y) = true ↔ cmpSKey x y = .lt ∨ x = y := by
  cases h : cmpSKey x y with
  | lt => simp [ordLe]
  | eq => simp [ordLe, (cmpSKey_eq_iff x y).1 h]
  | gt =>
      simp only [ordLe]
      constructor
      · intro hf; cases hf
      · rintro (hl | rfl)
        · cases hl
        · rw [(cmpSKey_eq_iff x x).2 rfl] at h; cases h

theorem keyLe_total (k : α → SKey) (a b : α) : keyLe k a b = true ∨ keyLe k b a = true := by
  unfold keyLe
  cases h : cmpSKey (k a) (k b) with
  | lt => left; simp [ordLe]
  | eq => left; simp [ordLe]
  | gt =>
      right
      have hs := cmpSKey_swap (k b) (k a)
      rw [h] at hs
      have hl : cmpSKey (k b) (k a) = .lt := by rw [hs]; rfl
      simp [ordLe, hl]

theorem keyLe_trans (k : α → SKey) {a b c : α}
    (h1 : keyLe k a b = true) (h2 : keyLe k b c = true) : keyLe k a c = true := by
  unfold keyLe at *
  rw [ordLe_cmpSKey_iff] at h1 h2 ⊢
  rcases h1 with h1 | h1
  · rcases h2 with h2 | h2
    · exact Or.inl (cmpSKey_lt_trans h1 h2)
    · rw [h2] at h1; exact Or.inl h1
  · rcases h2 with h2 | h2
    · rw [← h1] at h2; exact Or.inl h2
    · exact Or.inr (h1.trans h2)

theorem insertS_perm (le : α → α → Bool) (a : α) (l : List α) :
    List.Perm (insertS le a l) (a :: l) := by
  induction l with
  | nil => exact List.Perm.refl _
  | cons b t ih =>
    by_cases h : le a b = true
    · simp only [insertS, h, if_true]
      exact List.Perm.refl _
    · rw [Bool.not_eq_true] at h
      simp only [insertS, h]
      exact (ih.cons b).trans (List.Perm.swap a b t)

theorem insSort_perm (le : α → α → Bool) (l : List α) :
    List.Perm (insSort le l) l := by
  induction l with
  | nil => exact List.Perm.refl _
  | cons a t ih => exact (insertS_perm le a (insSort le t)).trans (ih.cons a)

theorem pairwise_insertS {le : α → α → Bool}
    (htot : ∀ a b, le a b = true ∨ le b a = true)
    (htr : ∀ {a b c}, le a b = true → le b c = true → le a c = true)
    (a : α) {l : List α} (h : l.Pairwise fun x y => le x y = true) :
    (insertS le a l).Pairwise fun x y => le x y = true := by
  induction l with
  | nil => simp [insertS]
  | cons b t ih =>
    rw [List.pairwise_cons] at h
    obtain ⟨hb, ht⟩ := h
    by_cases hab : le a b = true
    · simp only [insertS, hab, if_true]
      refine List.Pairwise.cons ?_ (List.Pairwise.cons hb ht)
      intro x hx
      rcases List.mem_cons.1 hx with rfl | hx'
      · exact hab
      · exact htr hab (hb x hx')
    · have hba : le b a = true := (htot a b).resolve_left hab
      rw [Bool.not_eq_true] at hab
      simp only [insertS, hab]
      refine List.Pairwise.cons ?_ (ih ht)
      intro x hx
      have hx2 : x ∈ a :: t := (insertS_perm le a t).mem_iff.1 hx
      rcases List.mem_cons.1 hx2 with rfl | hx'
      · exact hba
      · exact hb x hx'

theorem pairwise_insSort {le : α → α → Bool}
    (htot : ∀ a b, le a b = true ∨ le b a = true)
    (htr : ∀ {a b c}, le a b = true → le b c = true → le a c = true)
    (l : List α) : (insSort le l).Pairwise fun x y => le x y = true := by
  induction l with
  | nil => simp [insSort]
  | cons a t ih => exact pairwise_insertS htot htr a ih

theorem pairwise_sortByKey (k : α → SKey) (l : List α) :
    (sortByKey k l).Pairwise fun a b => keyLe k a b = true :=
  pairwise_insSort (keyLe_total k) (fun h1 h2 => keyLe_trans k h1 h2) l

theorem sortByKey_perm (k : α → SKey) (l : List α) : List.Perm (sortByKey k l) l :=
  insSort_perm (keyLe k) l

/-! ## Association-list (Python dict) lemmas -/

theorem dGet_dUpd [DecidableEq K] (m : List (K × β)) (k k' : K) (v : β) :
    dGet (dUpd m k v) k' = if k' = k then some v else dGet m k' := by
  induction m with
  | nil => simp [dUpd, dGet]
  | cons p t ih =>
    obtain ⟨k0, v0⟩ := p
    by_cases h : k = k0
    · subst h
      simp only [dUpd, if_pos rfl]
      by_cases h' : k' = k
      · simp [dGet, h']
      · simp [dGet, h']
    · simp only [dUpd, if_neg h]
      by_cases h' : k' = k0
      · subst h'
        simp [dGet, Ne.symm h]
      · simp [dGet, h', ih]

theorem dGet_dModify [DecidableEq K] (m : List (K × β)) (k k' : K) (f : β → β) :
    dGet (dModify m k f) k' = if k' = k then (dGet m k).map f else dGet m k' := by
  induction m with
  | nil => simp [dModify, dGet]
  | cons p t ih =>
    obtain ⟨k0, v0⟩ := p
    by_cases h : k = k0
    · subst h
      simp only [dModify, if_pos rfl]
      by_cases h' : k' = k
      · simp [dGet, h']
      · simp [dGet, h']
    · simp only [dModify, if_neg h]
      by_cases h' : k' = k0
      · subst h'
        simp [dGet, Ne.symm h, h]
      · simp [dGet, h', h, ih]

theorem dGet_mapVal [DecidableEq K] (m : List (K × β)) (f : β → γ) (k : K) :
    dGet (m.map fun p => (p.1, f p.2)) k = (dGet m k).map f := by
  induction m with
  | nil => simp [dGet]
  | cons p t ih =>
    obtain ⟨k0, v0⟩ := p
    by_cases h : k = k0
    · simp [dGet, h]
    · simp [dGet, h, ih]

theorem dKeys_dUpd_mem [DecidableEq K] (m : List (K × β)) (k : K) (v : β)
    (h : dMem m k = true) : dKeys (dUpd m k v) = dKeys m := by
  induction m with
  | nil => simp [dMem, dGet] at h
  | cons p t ih =>
    obtain ⟨k0, v0⟩ := p
    by_cases hk : k = k0
    · subst hk
      simp [dUpd, dKeys]
    · simp only [dMem, dGet, if_neg hk] at h
      simp [dUpd, hk, dKeys] at ih ⊢
      exact ih h

theorem dKeys_dModify [DecidableEq K] (m : List (K × β)) (k : K) (f : β → β) :
    dKeys (dModify m k f) = dKeys m := by
  induction m with
  | nil => simp [dModify]
  | cons p t ih =>
    obtain ⟨k0, v0⟩ := p
    by_cases hk : k = k0
    · subst hk
      simp [dModify, dKeys]
    · simp [dModify, hk, dKeys] at ih ⊢
      exact ih

/-- Invariance of a predicate under a left fold. -/
theorem foldl_inv {σ χ : Type _} {P : σ → Prop} (step : σ → χ → σ)
    (h : ∀ s x, P s → P (step s x)) :
    ∀ (l : List χ) (s : σ), P s → P (l.foldl step s) := by
  intro l
  induction l with
  | nil => intro s hs; exact hs
  | cons x t ih => intro s hs; exact ih (step s x) (h s x hs)

/-! ## SHA-1 digest shape -/

def isHexDigitC (c : Char) : Bool := isDigitC c || (97 ≤ c.toNat && c.toNat ≤ 102)

theorem hexDigitChar_hex : ∀ m, m < 16 → isHexDigitC (hexDigitChar m) = true := by decide

theorem sha1Bytes_length (msg : List Nat) : (sha1Bytes msg).length = 20 := by
  simp [sha1Bytes, wordBytes]

theorem foldr_hexpair_length (l : List Nat) :
    (l.foldr (fun b acc => hexDigitChar (b / 16) :: hexDigitChar (b % 16) :: acc) []).length
      = 2 * l.length := by
  induction l with
  | nil => rfl
  | cons b t ih => simp [ih]; omega

theorem sha1Hex_length (msg : List Nat) : (sha1Hex msg).length = 40 := by
  show ((sha1Bytes msg).foldr _ []).length = 40
  rw [foldr_hexpair_length, sha1Bytes_length]

theorem sha1Bytes_lt (msg : List Nat) : ∀ b ∈ sha1Bytes msg, b < 256 := by
  intro b hb
  simp [sha1Bytes, wordBytes, List.mem_append, List.mem_cons] at hb
  omega

theorem foldr_hexpair_all :
    ∀ l : List Nat, (∀ b ∈ l, b < 256) →
      (l.foldr (fun b acc => hexDigitChar (b / 16) :: hexDigitChar (b % 16) :: acc) []).all
        isHexDigitC = true := by
  intro l
  induction l with
  | nil => intro _; rfl
  | cons b t ih =>
      intro h
      have hb : b < 256 := h b (List.mem_cons_self b t)
      have ht := ih (fun x hx => h x (List.mem_cons_of_mem b hx))
      simp only [List.foldr, List.all_cons, Bool.and_eq_true]
      exact ⟨hexDigitChar_hex _ (by omega),
        hexDigitChar_hex _ (Nat.mod_lt _ (by norm_num)), ht⟩

theorem sha1Hex_hexchars (msg : List Nat) : (sha1Hex msg).data.all isHexDigitC = true :=
  foldr_hexpair_all (sha1Bytes msg) (sha1Bytes_lt msg)

/-- Sanity: FIPS 180-1 test vector for the empty message. -/
theorem sha1_empty_vector :
    sha1Hex (strBytes "") = "da39a3ee5e6b4b0d3255bfef95601890afd80709" := by decide

/-- Sanity: FIPS 180-1 test vector for the message "abc". -/
theorem sha1_abc_vector :
    sha1Hex (strBytes "abc") = "a9993e364706816aba3e25717850c26c9cd0d89d" := by decide

/-! ## Claim C1 -/

/-- C1 counterexample: in the airports primary pass, two rows sharing
identifier ABC do not leave the first-seen entity in place. The second
row overwrites the stored entity (its name wins) and `written` counts
both rows; `AirportStats` has no duplicate counter at all. -/
theorem c1_counterexample :
    (buildAirports aptHeaders [aptRow "FIRST", aptRow "SECOND"] [] []).map
        (fun p => (p.1.map AirportRec.name, p.2.written)) = Except.ok (["SECOND"], 2) := by
  rfl

/-- C1 amended: duplicate handling differs per primary pass. In the
navaids pass a row whose normalized identifier was already seen leaves
the entity map and every skip counter unchanged — only rows-read
advances, and `NavStats` has no duplicate counter. In the comms pass a
duplicate identifier, natural or synthetic (a blank-code row whose
synthetic digest was already seen), leaves the output unchanged and
increments `skippedDuplicateId` by exactly one. In the airports primary
pass a parseable row whose identifier is already stored replaces the
stored entity in place: the key set is unchanged, `written` increments
again, and the entity now stored under that identifier is the one built
from the later row's fields. -/
theorem c1_amended :
    (∀ (st : NavState) (r : Row) (ir i : String),
        getStrip r "NAV_ID" = some ir → navNormalizeId ir = some i →
        dMem st.byId i = true →
        navaidsStep st r =
          { st with stats := { st.stats with totalRowsRead := st.stats.totalRowsRead + 1 } }) ∧
    (∀ (st : CommState) (r : Row) (oid : String),
        (getStrip r "COMM_LOC_ID").orElse (fun _ => getStrip r "COM_OUTLET_ID") = some oid →
        st.seenIds.contains oid = true →
        commsStep st r =
          { st with stats := { st.stats with
              totalRowsRead := st.stats.totalRowsRead + 1
              skippedDuplicateId := st.stats.skippedDuplicateId + 1 } }) ∧
    (∀ (st : CommState) (r : Row),
        (getStrip r "COMM_LOC_ID").orElse (fun _ => getStrip r "COM_OUTLET_ID") = none →
        st.seenIds.contains (buildSyntheticId r) = true →
        commsStep st r =
          { st with stats := { st.stats with
              totalRowsRead := st.stats.totalRowsRead + 1
              skippedDuplicateId := st.stats.skippedDuplicateId + 1 } }) ∧
    (∀ (c : AirportCols) (st : AirportState) (r : Row) (lat lon : Rat),
        pupper (pstrip ((rget r c.arptId).getD "")) ≠ "" →
        parseDec (pstrip ((rget r c.lat).getD "")) = some lat →
        parseDec (pstrip ((rget r c.lon).getD "")) = some lon →
        dMem st.byId (pupper (pstrip ((rget r c.arptId).getD ""))) = true →
        dKeys (airportsRowStep c st r).byId = dKeys st.byId ∧
        (airportsRowStep c st r).stats.written = st.stats.written + 1 ∧
        dGet (airportsRowStep c st r).byId (pupper (pstrip ((rget r c.arptId).getD ""))) =
          some (airportsEntOf (pupper (pstrip ((rget r c.arptId).getD "")))
            (pupper (pstrip ((rget r c.icaoId).getD "")))
            (pstrip ((rget r c.name).getD ""))
            (pstrip ((rget r c.city).getD ""))
            (pstrip ((rget r c.state).getD ""))
            lat lon
            (if pstrip ((rget r c.elev).getD "") = "" then none
             else
               match parseDec (pstrip ((rget r c.elev).getD "")) with
               | some q => some (roundHalfEven q)
               | none => none))) := by
  refine ⟨?_, ?_, ?_, ?_⟩
  · intro st r ir i h1 h2 h3
    simp only [navaidsStep, h1, h2, h3, if_true]
  · intro st r oid h1 h2
    simp only [commsStep, h1, h2, if_true]
  · intro st r h1 h2
    simp only [commsStep, h1, h2, if_true]
  · intro c st r lat lon h1 hlat hlon h4
    have hpe : parseDec "" = none := rfl
    have hlatRaw : pstrip ((rget r c.lat).getD "") ≠ "" := by
      intro he; rw [he, hpe] at hlat; cases hlat
    have hlonRaw : pstrip ((rget r c.lon).getD "") ≠ "" := by
      intro he; rw [he, hpe] at hlon; cases hlon
    refine ⟨?_, ?_, ?_⟩
    · simp only [airportsRowStep, h1, hlatRaw, hlonRaw, hlat, hlon, if_neg, ite_false,
        false_or, or_self, if_false]
      (repeat' split) <;> exact dKeys_dUpd_mem _ _ _ h4
    · simp only [airportsRowStep, h1, hlatRaw, hlonRaw, hlat, hlon, if_neg, ite_false,
        false_or, or_self, if_false]
      (repeat' split) <;> rfl
    · by_cases he : pstrip ((rget r c.elev).getD "") = ""
      · simp only [airportsRowStep, h1, hlatRaw, hlonRaw, hlat, hlon, he, if_neg, ite_false,
          false_or, or_self, if_false, ite_true]
        (repeat' split) <;> (rw [dGet_dUpd]; simp)
      · cases hE : parseDec (pstrip ((rget r c.elev).getD "")) with
        | none =>
            simp only [airportsRowStep, h1, hlatRaw, hlonRaw, hlat, hlon, he, hE, if_neg,
              ite_false, false_or, or_self, if_false]
            (repeat' split) <;> (rw [dGet_dUpd]; simp)
        | some q =>
            simp only [airportsRowStep, h1, hlatRaw, hlonRaw, hlat, hlon, he, hE, if_neg,
              ite_false, false_or, or_self, if_false]
            (repeat' split) <;> (rw [dGet_dUpd]; simp)

/-- C1 amended, witness at concrete inputs. -/
theorem c1_amended_witness :
    (navaidsStep (navaidsStep ⟨[], navStats0⟩ (navRow "ONE")) (navRow "TWO") =
      { navaidsStep ⟨[], navStats0⟩ (navRow "ONE") with stats :=
        { (navaidsStep ⟨[], navStats0⟩ (navRow "ONE")).stats with totalRowsRead :=
            (navaidsStep ⟨[], navStats0⟩ (navRow "ONE")).stats.totalRowsRead + 1 } }) ∧
    (commsStep (commsStep ⟨[], [], commStats0⟩ (commRowId "B")) (commRowId "B") =
      { commsStep ⟨[], [], commStats0⟩ (commRowId "B") with stats :=
        { (commsStep ⟨[], [], commStats0⟩ (commRowId "B")).stats with
            totalRowsRead := (commsStep ⟨[], [], commStats0⟩ (commRowId "B")).stats.totalRowsRead + 1
            skippedDuplicateId :=
              (commsStep ⟨[], [], commStats0⟩ (commRowId "B")).stats.skippedDuplicateId + 1 } }) ∧
    (commsStep (commsStep ⟨[], [], commStats0⟩ commScenarioRow) commScenarioRow =
      { commsStep ⟨[], [], commStats0⟩ commScenarioRow with stats :=
        { (commsStep ⟨[], [], commStats0⟩ commScenarioRow).stats with
            totalRowsRead :=
              (commsStep ⟨[], [], commStats0⟩ commScenarioRow).stats.totalRowsRead + 1
            skippedDuplicateId :=
              (commsStep ⟨[], [], commStats0⟩ commScenarioRow).stats.skippedDuplicateId + 1 } }) ∧
    (dKeys (airportsRowStep ⟨"ARPT_ID", "ICAO_ID", "ARPT_NAME", "CITY", "STATE_CODE",
        "LAT_DECIMAL", "LONG_DECIMAL", "ELEV"⟩
        ((fun st => AirportState.mk st.byId st.stats)
          (airportsRowStep ⟨"ARPT_ID", "ICAO_ID", "ARPT_NAME", "CITY", "STATE_CODE",
            "LAT_DECIMAL", "LONG_DECIMAL", "ELEV"⟩ ⟨[], airportStats0⟩ (aptRow "FIRST")))
        (aptRow "SECOND")).byId =
      dKeys ((fun st => AirportState.mk st.byId st.stats)
          (airportsRowStep ⟨"ARPT_ID", "ICAO_ID", "ARPT_NAME", "CITY", "STATE_CODE",
            "LAT_DECIMAL", "LONG_DECIMAL", "ELEV"⟩ ⟨[], airportStats0⟩ (aptRow "FIRST"))).byId) :=
  ⟨c1_amended.1 _ (navRow "TWO") "MSP" "MSP" (by decide) (by decide) (by decide),
   c1_amended.2.1 _ (commRowId "B") "B" (by decide) (by decide),
   c1_amended.2.2.1 _ commScenarioRow (by decide) (by with_unfolding_all rfl),
   (c1_amended.2.2.2 _ _ (aptRow "SECOND") ((parseDec "44.5").getD 0) ((parseDec "-93.2").getD 0)
      (by decide) (by rfl) (by rfl) (by decide)).1⟩

/-! ## Claim C2 -/

/-- C2 counterexample: the synthetic identifier of the scenario row is
`SYN:` followed by a 40-hex-character SHA-1 digest, not a
64-hex-character digest. -/
theorem c2_counterexample :
    (buildComms [commScenarioRow]).1.map CommRec.outletId =
        ["SYN:e3095fe1dc218909e2b866fcbf7c509265fcb7e6"] ∧
    ¬ ∃ d : String, "SYN:e3095fe1dc218909e2b866fcbf7c509265fcb7e6" = "SYN:" ++ d ∧
        d.length = 64 := by
  constructor
  · with_unfolding_all rfl
  · rintro ⟨d, hd, hlen⟩
    have h44 : ("SYN:e3095fe1dc218909e2b866fcbf7c509265fcb7e6" : String).length = 44 := by decide
    rw [hd, String.length_append] at h44
    have h4 : ("SYN:" : String).length = 4 := by decide
    rw [h4, hlen] at h44
    omega

/-- C2 amended: a communication-outlet row with a blank outlet code is
assigned `buildSyntheticId`, the literal `SYN:` followed by a
40-hex-character SHA-1 digest of the joined canonical field values
(fixed field order, trim and uppercase, six-decimal coordinates), and
equal rows always yield equal digests. -/
theorem c2_amended :
    (∀ (st : CommState) (r : Row),
        (getStrip r "COMM_LOC_ID").orElse (fun _ => getStrip r "COM_OUTLET_ID") = none →
        st.seenIds.contains (buildSyntheticId r) = false →
        (commsStep st r).outList = st.outList ++ [commRecOf r (buildSyntheticId r)]) ∧
    (∀ r : Row, ∃ d : String, buildSyntheticId r = "SYN:" ++ d ∧ d.length = 40 ∧
        d.data.all isHexDigitC = true) ∧
    (∀ r r2 : Row, r2 = r → buildSyntheticId r2 = buildSyntheticId r) := by
  refine ⟨?_, ?_, ?_⟩
  · intro st r h1 h2
    simp only [commsStep, h1, h2, Bool.false_eq_true, if_false]
  · intro r
    exact ⟨sha1Hex (strBytes (String.intercalate "|" (SYNTHETIC_KEY_FIELDS.map (synPart r)))),
      rfl, sha1Hex_length _, sha1Hex_hexchars _⟩
  · intro r r2 h; rw [h]

/-- C2 amended, witness at the scenario row. -/
theorem c2_amended_witness :
    (commsStep ⟨[], [], commStats0⟩ commScenarioRow).outList =
        [] ++ [commRecOf commScenarioRow (buildSyntheticId commScenarioRow)] ∧
    (∃ d : String, buildSyntheticId commScenarioRow = "SYN:" ++ d ∧ d.length = 40 ∧
        d.data.all isHexDigitC = true) ∧
    buildSyntheticId commScenarioRow = buildSyntheticId commScenarioRow :=
  ⟨c2_amended.1 ⟨[], [], commStats0⟩ commScenarioRow (by decide) rfl,
   c2_amended.2.1 commScenarioRow,
   c2_amended.2.2 commScenarioRow commScenarioRow rfl⟩

/-! ## Claim C3 -/

/-- C3: each builder is a pure function of its input rows; running any
build twice on equal inputs yields equal output documents and
diagnostics, synthetic identifiers included. -/
theorem c3_two_run_determinism :
    ∀ (fns fns' : List String) (r1 r2 r3 r4 s1 s2 s3 s4 : List Row),
      fns = fns' → r1 = s1 → r2 = s2 → r3 = s3 → r4 = s4 →
      buildAirports fns r1 r2 r3 = buildAirports fns' s1 s2 s3 ∧
      buildComms r1 = buildComms s1 ∧
      buildNavaids r1 = buildNavaids s1 ∧
      buildIls r1 r2 r3 r4 = buildIls s1 s2 s3 s4 ∧
      buildRunways r1 r2 = buildRunways s1 s2 ∧
      buildAirways r1 r2 = buildAirways s1 s2 := by
  intro fns fns' r1 r2 r3 r4 s1 s2 s3 s4 h0 h1 h2 h3 h4
  subst h0; subst h1; subst h2; subst h3; subst h4
  exact ⟨rfl, rfl, rfl, rfl, rfl, rfl⟩

/-- C3, witness at concrete inputs. -/
theorem c3_two_run_determinism_witness :
    buildAirports aptHeaders [aptRow "FIRST"] [] [] = buildAirports aptHeaders [aptRow "FIRST"] [] [] ∧
    buildComms [aptRow "FIRST"] = buildComms [aptRow "FIRST"] ∧
    buildNavaids [aptRow "FIRST"] = buildNavaids [aptRow "FIRST"] ∧
    buildIls [aptRow "FIRST"] [] [] [] = buildIls [aptRow "FIRST"] [] [] [] ∧
    buildRunways [aptRow "FIRST"] [] = buildRunways [aptRow "FIRST"] [] ∧
    buildAirways [aptRow "FIRST"] [] = buildAirways [aptRow "FIRST"] [] :=
  c3_two_run_determinism aptHeaders aptHeaders [aptRow "FIRST"] [] [] [] [aptRow "FIRST"] [] [] []
    rfl rfl rfl rfl rfl

/-! ## Claims C4 and C5: the fallback scan -/

theorem ilsFallback_nomatch (key : IlsKey) (upd : IlsRec → IlsRec) :
    ∀ m : List (IlsKey × IlsRec), (∀ e ∈ m, ¬(e.1.1 = key.1 ∧ e.1.2.1 = key.2.1)) →
      ilsFallback key upd m = m := by
  intro m
  induction m with
  | nil => intro _; rfl
  | cons p t ih =>
    intro h
    have hp := h p (List.mem_cons_self p t)
    obtain ⟨k, v⟩ := p
    simp only [ilsFallback, if_neg hp]
    rw [ih (fun e he => h e (List.mem_cons_of_mem _ he))]

theorem ilsFallback_first (key : IlsKey) (upd : IlsRec → IlsRec) :
    ∀ (pre : List (IlsKey × IlsRec)) (k0 : IlsKey) (v0 : IlsRec) (post : List (IlsKey × IlsRec)),
      (∀ e ∈ pre, ¬(e.1.1 = key.1 ∧ e.1.2.1 = key.2.1)) →
      (k0.1 = key.1 ∧ k0.2.1 = key.2.1) →
      ilsFallback key upd (pre ++ (k0, v0) :: post) = pre ++ (k0, upd v0) :: post := by
  intro pre
  induction pre with
  | nil =>
    intro k0 v0 post _ hk0
    simp only [List.nil_append, ilsFallback, if_pos hk0]
  | cons p t ih =>
    intro k0 v0 post h hk0
    have hp := h p (List.mem_cons_self p t)
    obtain ⟨k, v⟩ := p
    simp only [List.cons_append, ilsFallback, if_neg hp]
    rw [List.append_eq, ih k0 v0 post (fun e he => h e (List.mem_cons_of_mem _ he)) hk0]

/-- C4 counterexample: an ILS DME row whose reduced key matches no
parent is dropped, and no unmatched-join counter exists or increments:
the stats record only advances the rows-read field (`skippedMissingKey`
stays 0) and has no unmatched counter at all. -/
theorem c4_counterexample :
    (buildIls [ilsBaseRow "Z"] [ilsDmeFarRow] [] []).1 =
        (buildIls [ilsBaseRow "Z"] [] [] []).1 ∧
    (buildIls [ilsBaseRow "Z"] [ilsDmeFarRow] [] []).2 =
      { baseRows := 1, dmeRows := 1, gsRows := 0, mkrRows := 0, written := 1,
        skippedMissingKey := 0 } := by
  constructor
  · with_unfolding_all rfl
  · with_unfolding_all rfl

/-- C4 amended: in the ILS build, a component row whose full composite
key matches no parent is appended to the first-inserted parent whose
airport and runway match (with exactly one reduced-key match, that
parent); with zero reduced-key matches, the row is dropped and no
diagnostic counter changes beyond rows-read. The runways-end join has no
fallback: an end row whose exact composite key is absent is dropped
silently. -/
theorem c4_amended :
    (∀ (bump : IlsStats → IlsStats) (add : IlsRec → List (String × String) → IlsRec)
        (st : IlsState) (r : Row) (key : IlsKey)
        (pre : List (IlsKey × IlsRec)) (k0 : IlsKey) (v0 : IlsRec)
        (post : List (IlsKey × IlsRec)),
        ilsDmeKey r = some key → dMem st.byKey key = false →
        st.byKey = pre ++ (k0, v0) :: post →
        (∀ e ∈ pre, ¬(e.1.1 = key.1 ∧ e.1.2.1 = key.2.1)) →
        (k0.1 = key.1 ∧ k0.2.1 = key.2.1) →
        ilsCompStep bump add st r =
          ⟨pre ++ (k0, add v0 (allKeys r)) :: post, bump st.stats⟩) ∧
    (∀ (bump : IlsStats → IlsStats) (add : IlsRec → List (String × String) → IlsRec)
        (st : IlsState) (r : Row) (key : IlsKey),
        ilsDmeKey r = some key → dMem st.byKey key = false →
        (∀ e ∈ st.byKey, ¬(e.1.1 = key.1 ∧ e.1.2.1 = key.2.1)) →
        ilsCompStep bump add st r = ⟨st.byKey, bump st.stats⟩) ∧
    (∀ (st : RwyState) (r : Row) (a w : String),
        getStrip r "ARPT_ID" = some a → getStrip r "RWY_ID" = some w →
        dMem st.runways (pupper a, pupper w) = false →
        runwaysEndStep st r =
          { st with stats :=
              { st.stats with totalEndRowsRead := st.stats.totalEndRowsRead + 1 } }) := by
  refine ⟨?_, ?_, ?_⟩
  · intro bump add st r key pre k0 v0 post h1 h2 hsplit hpre hk0
    simp only [ilsCompStep, h1, h2, Bool.false_eq_true, if_false]
    rw [hsplit, ilsFallback_first key _ pre k0 v0 post hpre hk0]
  · intro bump add st r key h1 h2 hall
    simp only [ilsCompStep, h1, h2, Bool.false_eq_true, if_false]
    rw [ilsFallback_nomatch key _ st.byKey hall]
  · intro st r a w h1 h2 h3
    simp only [runwaysEndStep, h1, h2, h3, Bool.false_eq_true, if_false]

/-- C4 amended, witness at concrete inputs. -/
theorem c4_amended_witness :
    (ilsCompStep bumpDme addDme ⟨[(("KMSP", "12", "Z"), ilsEntZ)], ilsStats0⟩ ilsDmeRow =
      ⟨[] ++ (("KMSP", "12", "Z"), addDme ilsEntZ (allKeys ilsDmeRow)) :: [], bumpDme ilsStats0⟩) ∧
    (ilsCompStep bumpDme addDme ⟨[(("KMSP", "12", "Z"), ilsEntZ)], ilsStats0⟩ ilsDmeFarRow =
      ⟨[(("KMSP", "12", "Z"), ilsEntZ)], bumpDme ilsStats0⟩) ∧
    (runwaysEndStep ⟨[], rwyStats0⟩ rwyEndRowMismatch =
      { RwyState.mk [] rwyStats0 with stats :=
          { rwyStats0 with totalEndRowsRead := rwyStats0.totalEndRowsRead + 1 } }) :=
  ⟨c4_amended.1 bumpDme addDme _ ilsDmeRow ("KMSP", "12", "B") [] ("KMSP", "12", "Z") ilsEntZ []
      (by decide) (by decide) rfl (by simp) (by decide),
   c4_amended.2.1 bumpDme addDme _ ilsDmeFarRow ("KXYZ", "12", "B") (by decide) (by decide)
      (by decide),
   c4_amended.2.2 ⟨[], rwyStats0⟩ rwyEndRowMismatch "KMSP" "12" (by decide) (by decide) rfl⟩

/-- C5 counterexample: with two parents sharing the reduced key inserted
in the order Z then A, a fallback child attaches to Z, the
first-inserted parent, although A is least in canonical key order. -/
theorem c5_counterexample :
    ((buildIls [ilsBaseRow "Z", ilsBaseRow "A"] [ilsDmeRow] [] []).1.map
        (fun e => (e.ident, e.dme.length)) = [("A", 0), ("Z", 1)]) ∧
    keyLe ilsKeyK ("KMSP", "12", "A") ("KMSP", "12", "Z") = true := by
  constructor
  · with_unfolding_all rfl
  · decide

/-- C5 amended: the fallback scan iterates the entity map in its current
insertion order (the order base rows were first seen), not in canonical
sort order: it updates the first-inserted entry whose airport and runway
match the child's reduced key, leaving every earlier non-matching entry
and every later entry unchanged. -/
theorem c5_amended :
    ∀ (key : IlsKey) (upd : IlsRec → IlsRec)
      (pre : List (IlsKey × IlsRec)) (k0 : IlsKey) (v0 : IlsRec)
      (post : List (IlsKey × IlsRec)),
      (∀ e ∈ pre, ¬(e.1.1 = key.1 ∧ e.1.2.1 = key.2.1)) →
      (k0.1 = key.1 ∧ k0.2.1 = key.2.1) →
      ilsFallback key upd (pre ++ (k0, v0) :: post) = pre ++ (k0, upd v0) :: post :=
  fun key upd pre k0 v0 post hpre hk0 => ilsFallback_first key upd pre k0 v0 post hpre hk0

/-- C5 amended, witness at concrete inputs. -/
theorem c5_amended_witness :
    ilsFallback ("KMSP", "12", "B") (fun v => addDme v [])
        ([(("KXYZ", "9", "Q"), ilsEntZ)] ++ (("KMSP", "12", "Z"), ilsEntZ) :: []) =
      [(("KXYZ", "9", "Q"), ilsEntZ)] ++ (("KMSP", "12", "Z"), addDme ilsEntZ []) :: [] :=
  c5_amended ("KMSP", "12", "B") (fun v => addDme v [])
    [(("KXYZ", "9", "Q"), ilsEntZ)] ("KMSP", "12", "Z") ilsEntZ [] (by decide) (by decide)

/-! ## Claim C6 -/

/-- C6: the schema resolver returns the exact header name when present;
otherwise the first listed alternate that is present; otherwise the
case-insensitive match over the canonical name and the alternates; and
with no match at all it fails with an error carrying the canonical field
name and the full header list, which aborts `build_airports` before any
row is processed. -/
theorem c6_resolver :
    (∀ (fns : List String) (req : String) (alts : List String),
        req ∈ fns → resolve fns req alts = .ok req) ∧
    (∀ (fns : List String) (req : String) (pre : List String) (a : String) (post : List String),
        req ∉ fns → (∀ b ∈ pre, b ∉ fns) → a ∈ fns →
        resolve fns req (pre ++ a :: post) = .ok a) ∧
    (∀ (fns : List String) (req : String) (alts : List String) (h : String),
        req ∉ fns → (∀ b ∈ alts, b ∉ fns) →
        ((req :: alts).findSome? fun n => fns.reverse.find? fun x => pupper x == pupper n) =
          some h →
        resolve fns req alts = .ok h) ∧
    (∀ (fns : List String) (req : String) (alts : List String),
        req ∉ fns → (∀ b ∈ alts, b ∉ fns) →
        (∀ n ∈ req :: alts, ∀ x ∈ fns, pupper x ≠ pupper n) →
        resolve fns req alts = .error (req, fns)) ∧
    (∀ (fns : List String) (rows rwyRows freqRows : List Row) (e : String × List String),
        resolve fns "ARPT_ID" [] = .error e →
        buildAirports fns rows rwyRows freqRows = .error e) := by
  refine ⟨?_, ?_, ?_, ?_, ?_⟩
  · intro fns req alts h
    simp [resolve, h]
  · intro fns req pre a post hreq hpre ha
    have h1 : pre.find? (fun b => decide (b ∈ fns)) = none := by
      rw [List.find?_eq_none]
      intro x hx
      simpa using hpre x hx
    have h2 : (a :: post).find? (fun b => decide (b ∈ fns)) = some a := by
      simp [List.find?_cons, ha]
    simp [resolve, hreq, h1, h2]
  · intro fns req alts h hreq halts hfs
    have hfind : alts.find? (fun b => decide (b ∈ fns)) = none := by
      rw [List.find?_eq_none]
      intro x hx
      simpa using halts x hx
    simp [resolve, hreq, hfind, hfs]
  · intro fns req alts hreq halts hci
    have hfind : alts.find? (fun b => decide (b ∈ fns)) = none := by
      rw [List.find?_eq_none]
      intro x hx
      simpa using halts x hx
    have hfs : ((req :: alts).findSome? fun n =>
        fns.reverse.find? fun x => pupper x == pupper n) = none := by
      rw [List.findSome?_eq_none_iff]
      intro n hn
      rw [List.find?_eq_none]
      intro x hx
      simpa using hci n hn x (List.mem_reverse.1 hx)
    simp [resolve, hreq, hfind, hfs]
  · intro fns rows rwyRows freqRows e h
    simp [buildAirports, h, bind, Except.bind]

/-- C6, witness at concrete inputs. -/
theorem c6_resolver_witness :
    resolve aptHeaders "ARPT_ID" [] = .ok "ARPT_ID" ∧
    resolve ["ICAO"] "ICAO_ID" ([] ++ "ICAO" :: []) = .ok "ICAO" ∧
    resolve ["arpt_id"] "ARPT_ID" [] = .ok "arpt_id" ∧
    resolve ["X"] "ARPT_ID" [] = .error ("ARPT_ID", ["X"]) ∧
    buildAirports ["X"] [aptRow "FIRST"] [] [] = .error ("ARPT_ID", ["X"]) :=
  ⟨c6_resolver.1 aptHeaders "ARPT_ID" [] (by decide),
   c6_resolver.2.1 ["ICAO"] "ICAO_ID" [] "ICAO" [] (by decide) (by simp) (by decide),
   c6_resolver.2.2.1 ["arpt_id"] "ARPT_ID" [] "arpt_id" (by decide) (by simp) (by decide),
   c6_resolver.2.2.2.1 ["X"] "ARPT_ID" [] (by decide) (by simp) (by decide),
   c6_resolver.2.2.2.2 ["X"] [aptRow "FIRST"] [] [] ("ARPT_ID", ["X"]) (by rfl)⟩

/-! ## Claim C9 -/

/-- C9 counterexample: the airports build has no empty-output guard.
With empty input the build succeeds with zero entities, and the main
still emits the (empty) document instead of failing fatally. -/
theorem c9_counterexample :
    buildAirports aptHeaders [] [] [] = Except.ok ([], airportStats0) ∧
    airportsEmit aptHeaders [] [] [] = Except.ok [] := by
  constructor <;> rfl

/-- C9 amended: the comms, runways, navaids, ILS and airways mains fail
fatally and emit no document when the final entity set is empty, and
emit a nonempty result in full; the airports main has no empty-output
guard and emits its output document unconditionally, even when the
entity set is empty. -/
theorem c9_amended :
    (∀ rows : List Row, (buildComms rows).1 = [] →
        commsEmit rows = .error "comms output is empty; refusing to write.") ∧
    (∀ rows : List Row, (buildComms rows).1 ≠ [] →
        commsEmit rows = .ok (buildComms rows).1) ∧
    (∀ a b : List Row, (buildRunways a b).1 = [] →
        runwaysEmit a b = .error "runways output is empty; refusing to write.") ∧
    (∀ a b : List Row, (buildRunways a b).1 ≠ [] →
        runwaysEmit a b = .ok (buildRunways a b).1) ∧
    (∀ rows : List Row, (buildNavaids rows).1 = [] →
        navaidsEmit rows = .error "navaids output is empty; refusing to write.") ∧
    (∀ rows : List Row, (buildNavaids rows).1 ≠ [] →
        navaidsEmit rows = .ok (buildNavaids rows).1) ∧
    (∀ b d g m : List Row, (buildIls b d g m).1 = [] →
        ilsEmit b d g m = .error "ils output is empty; refusing to write.") ∧
    (∀ b d g m : List Row, (buildIls b d g m).1 ≠ [] →
        ilsEmit b d g m = .ok (buildIls b d g m).1) ∧
    (∀ a s : List Row, (buildAirways a s).1 = [] →
        airwaysEmit a s = .error "airways output is empty; refusing to write.") ∧
    (∀ a s : List Row, (buildAirways a s).1 ≠ [] →
        airwaysEmit a s = .ok (buildAirways a s).1) ∧
    (∀ (fns : List String) (rows rr fr : List Row) (out : List AirportRec)
        (stats : AirportStats),
        buildAirports fns rows rr fr = .ok (out, stats) →
        airportsEmit fns rows rr fr = .ok out) := by
  refine ⟨?_, ?_, ?_, ?_, ?_, ?_, ?_, ?_, ?_, ?_, ?_⟩
  · intro rows h
    simp [commsEmit, h]
  · intro rows h
    simp [commsEmit, h]
  · intro a b h
    simp [runwaysEmit, h]
  · intro a b h
    simp [runwaysEmit, h]
  · intro rows h
    simp [navaidsEmit, h]
  · intro rows h
    simp [navaidsEmit, h]
  · intro b d g m h
    simp [ilsEmit, h]
  · intro b d g m h
    simp [ilsEmit, h]
  · intro a s h
    simp [airwaysEmit, h]
  · intro a s h
    simp [airwaysEmit, h]
  · intro fns rows rr fr out stats h
    simp [airportsEmit, h, Except.map]

/-- C9 amended, witness at concrete inputs. -/
theorem c9_amended_witness :
    commsEmit [] = .error "comms output is empty; refusing to write." ∧
    commsEmit [commRowId "B"] = .ok (buildComms [commRowId "B"]).1 ∧
    runwaysEmit [] [] = .error "runways output is empty; refusing to write." ∧
    runwaysEmit [rwyBaseRow] [] = .ok (buildRunways [rwyBaseRow] []).1 ∧
    navaidsEmit [] = .error "navaids output is empty; refusing to write." ∧
    navaidsEmit [navRow "ONE"] = .ok (buildNavaids [navRow "ONE"]).1 ∧
    ilsEmit [] [] [] [] = .error "ils output is empty; refusing to write." ∧
    ilsEmit [ilsBaseRow "Z"] [] [] [] = .ok (buildIls [ilsBaseRow "Z"] [] [] []).1 ∧
    airwaysEmit [] [] = .error "airways output is empty; refusing to write." ∧
    airwaysEmit [awyBaseRow] [] = .ok (buildAirways [awyBaseRow] []).1 ∧
    airportsEmit aptHeaders [] [] [] = .ok [] :=
  ⟨c9_amended.1 [] rfl,
   c9_amended.2.1 [commRowId "B"] (by decide),
   c9_amended.2.2.1 [] [] rfl,
   c9_amended.2.2.2.1 [rwyBaseRow] [] (by decide),
   c9_amended.2.2.2.2.1 [] rfl,
   c9_amended.2.2.2.2.2.1 [navRow "ONE"] (by decide),
   c9_amended.2.2.2.2.2.2.1 [] [] [] [] rfl,
   c9_amended.2.2.2.2.2.2.2.1 [ilsBaseRow "Z"] [] [] [] (by decide),
   c9_amended.2.2.2.2.2.2.2.2.1 [] [] rfl,
   c9_amended.2.2.2.2.2.2.2.2.2.1 [awyBaseRow] [] (by decide),
   c9_amended.2.2.2.2.2.2.2.2.2.2 aptHeaders [] [] [] [] airportStats0 (by rfl)⟩

/-! ## Claim C7 -/

theorem navaidsStep_byId (st : NavState) (r : Row) :
    (navaidsStep st r).byId = st.byId ∨
    ∃ i lat lon, (navaidsStep st r).byId = dUpd st.byId i (navRecOf r i lat lon) := by
  unfold navaidsStep
  (repeat' split) <;> first
    | exact Or.inl rfl
    | exact Or.inr ⟨_, _, _, rfl⟩

theorem navaids_fold_inv (rows : List Row) :
    ∀ k v, dGet ((rows.foldl navaidsStep ⟨[], navStats0⟩).byId) k = some v →
      v.identifier = k := by
  refine foldl_inv (P := fun st : NavState =>
    ∀ k v, dGet st.byId k = some v → v.identifier = k) navaidsStep ?_ rows ⟨[], navStats0⟩ ?_
  · intro st r hst k v h
    rcases navaidsStep_byId st r with heq | ⟨i, lat, lon, heq⟩
    · rw [heq] at h; exact hst k v h
    · rw [heq, dGet_dUpd] at h
      by_cases hk : k = i
      · rw [if_pos hk] at h
        have hv : navRecOf r i lat lon = v := Option.some.inj h
        rw [← hv, hk]
        rfl
      · rw [if_neg hk] at h; exact hst k v h
  · intro k v h
    simp [dGet] at h

theorem runways_fold_inv (rwyRows endRows : List Row) :
    ∀ k v, dGet ((endRows.foldl runwaysEndStep
        (rwyRows.foldl runwaysRowStep ⟨[], rwyStats0⟩)).runways) k = some v →
      (v.airportIdentifier, v.runwayId) = k := by
  have h1 : ∀ k v, dGet ((rwyRows.foldl runwaysRowStep ⟨[], rwyStats0⟩).runways) k = some v →
      (v.airportIdentifier, v.runwayId) = k := by
    refine foldl_inv (P := fun st : RwyState =>
      ∀ k v, dGet st.runways k = some v → (v.airportIdentifier, v.runwayId) = k)
      runwaysRowStep ?_ rwyRows ⟨[], rwyStats0⟩ ?_
    · intro st r hst k v h
      simp only [runwaysRowStep] at h
      repeat' split at h
      all_goals first
        | exact hst k v h
        | (rw [dGet_dUpd] at h
           split at h
           · rename_i hk
             have hv := Option.some.inj h
             rw [← hv, hk]
           · exact hst k v h)
    · intro k v h
      simp [dGet] at h
  refine foldl_inv (P := fun st : RwyState =>
    ∀ k v, dGet st.runways k = some v → (v.airportIdentifier, v.runwayId) = k)
    runwaysEndStep ?_ endRows _ h1
  intro st r hst k v h
  simp only [runwaysEndStep] at h
  repeat' split at h
  all_goals first
    | exact hst k v h
    | (rw [dGet_dModify] at h
       split at h
       · rename_i hk
         rw [Option.map_eq_some'] at h
         obtain ⟨old, hold, hv⟩ := h
         rw [← hv]
         exact hst k old (hk ▸ hold)
       · exact hst k v h)

/-- C7 counterexample: the comms build emits outlets in input-row order,
not sorted by identifier. -/
theorem c7_counterexample :
    ((buildComms [commRowId "B", commRowId "A"]).1.map CommRec.outletId = ["B", "A"]) ∧
    ¬ ((buildComms [commRowId "B", commRowId "A"]).1.map CommRec.outletId).Pairwise
        (fun a b => keyLe strOneK a b = true) := by
  constructor
  · rfl
  · intro h
    have h2 : (["B", "A"] : List String).Pairwise (fun a b => keyLe strOneK a b = true) := h
    rw [List.pairwise_cons] at h2
    have := h2.1 "A" (by simp)
    exact absurd this (by decide)

/-- C7 amended: the navaids and runways builds emit entities sorted
lexicographically ascending by canonical key (identifier, respectively
the airport–runway pair); the comms build emits outlets in input-row
order, which need not be sorted. -/
theorem c7_amended :
    (∀ rows : List Row, ((buildNavaids rows).1).Pairwise
        (fun x y => keyLe (fun v : NavRec => strOneK v.identifier) x y = true)) ∧
    (∀ a b : List Row, ((buildRunways a b).1).Pairwise
        (fun x y =>
          keyLe (fun v : RwyRec => rwyKeyK (v.airportIdentifier, v.runwayId)) x y = true)) := by
  constructor
  · intro rows
    simp only [buildNavaids]
    rw [List.pairwise_filterMap]
    refine List.Pairwise.imp ?_ (pairwise_sortByKey strOneK _)
    intro k k' hkk x hx y hy
    have hxi := navaids_fold_inv rows k x (Option.mem_def.1 hx)
    have hyi := navaids_fold_inv rows k' y (Option.mem_def.1 hy)
    show ordLe (cmpSKey (strOneK x.identifier) (strOneK y.identifier)) = true
    rw [hxi, hyi]
    exact hkk
  · intro a b
    simp only [buildRunways]
    rw [List.pairwise_filterMap]
    refine List.Pairwise.imp ?_ (pairwise_sortByKey rwyKeyK _)
    intro k k' hkk x hx y hy
    rw [Option.mem_def, Option.map_eq_some'] at hx hy
    obtain ⟨vx, hvx, hxe⟩ := hx
    obtain ⟨vy, hvy, hye⟩ := hy
    have hxi := runways_fold_inv a b k vx hvx
    have hyi := runways_fold_inv a b k' vy hvy
    show ordLe (cmpSKey (rwyKeyK (x.airportIdentifier, x.runwayId))
      (rwyKeyK (y.airportIdentifier, y.runwayId))) = true
    rw [← hxe, ← hye]
    show ordLe (cmpSKey (rwyKeyK (vx.airportIdentifier, vx.runwayId))
      (rwyKeyK (vy.airportIdentifier, vy.runwayId))) = true
    rw [hxi, hyi]
    exact hkk

/-! ## Claims C8 and C10: the airports entity map through all passes -/

theorem normalizeId_kShape {s : Option String} {a : String}
    (h : normalizeId s = some a) : kShape a = true := by
  cases s with
  | none => cases h
  | some v =>
    simp only [normalizeId] at h
    split at h
    · cases h
    · split at h
      · rename_i hk
        rw [← Option.some.inj h]
        exact hk
      · cases h

theorem airportsRowStep_byId (c : AirportCols) (st : AirportState) (r : Row) :
    (airportsRowStep c st r).byId = st.byId ∨
    ∃ lid icao nm ci sa lat lon elev,
      (airportsRowStep c st r).byId = dUpd st.byId lid (airportsEntOf lid icao nm ci sa lat lon elev) := by
  simp only [airportsRowStep]
  (repeat' split) <;> first
    | exact Or.inl rfl
    | exact Or.inr ⟨_, _, _, _, _, _, _, _, rfl⟩

theorem airportsRwyStep_cases (m : List (String × AirportRec)) (r : Row) :
    airportsRwyStep m r = m ∨
    ∃ aid f, kShape aid = true ∧ airportsRwyStep m r = dModify m aid f ∧
      ∀ v : AirportRec, (f v).identifier = v.identifier ∧ (f v).frequencies = v.frequencies ∧
        ((f v).runways = v.runways ∨
          ∃ x, v.runways.contains x = false ∧ (f v).runways = v.runways ++ [x]) := by
  cases h : normalizeId (pick r RWY_ID_COLS) with
  | none => exact Or.inl (by simp [airportsRwyStep, h])
  | some aid =>
    by_cases hm : dMem m aid
    · by_cases hr : pupper (pstrip ((pick r RWY_NUM_COLS).getD "")) = ""
      · exact Or.inl (by simp [airportsRwyStep, h, hm, hr])
      · refine Or.inr ⟨aid, fun ent =>
          if ent.runways.contains (pupper (pstrip ((pick r RWY_NUM_COLS).getD ""))) then ent
          else { ent with runways :=
            ent.runways ++ [pupper (pstrip ((pick r RWY_NUM_COLS).getD ""))] },
          normalizeId_kShape h, by simp [airportsRwyStep, h, hm, hr], ?_⟩
        intro v
        by_cases hc : pupper (pstrip ((pick r RWY_NUM_COLS).getD "")) ∈ v.runways
        · simp [hc]
        · have hcc : v.runways.contains (pupper (pstrip ((pick r RWY_NUM_COLS).getD ""))) = false := by
            simpa using hc
          refine ⟨?_, ?_, Or.inr ⟨pupper (pstrip ((pick r RWY_NUM_COLS).getD "")), hcc, ?_⟩⟩ <;>
            simp [hc]
    · exact Or.inl (by simp [airportsRwyStep, h, hm])

theorem airportsFreqStep_cases (m : List (String × AirportRec)) (r : Row) :
    airportsFreqStep m r = m ∨
    ∃ aid f, kShape aid = true ∧ airportsFreqStep m r = dModify m aid f ∧
      ∀ v : AirportRec, (f v).identifier = v.identifier ∧ (f v).runways = v.runways := by
  cases h : normalizeId (pick r FREQ_ID_COLS) with
  | none => exact Or.inl (by simp [airportsFreqStep, h])
  | some aid =>
    by_cases hm : dMem m aid
    · cases hk : (dGet FREQ_TYPE_MAP (pupper (pstrip ((pick r FREQ_TYPE_COLS).getD "")))).orElse
        (fun _ => dGet FREQ_TYPE_MAP (takeStr 3 (pupper (pstrip ((pick r FREQ_TYPE_COLS).getD ""))))) with
      | none => exact Or.inl (by simp [airportsFreqStep, h, hm, hk])
      | some key =>
        by_cases hkey : key = "clearance" ∨ key = "ground" ∨ key = "tower" ∨ key = "departure"
        · by_cases hfv : pstrip ((pick r FREQ_VAL_COLS).getD "") ≠ "" ∧
            freqValOk (pstrip ((pick r FREQ_VAL_COLS).getD "")) = true
          · refine Or.inr ⟨aid, fun ent =>
              let fs := if dMem ent.frequencies key = true then ent.frequencies
                else ent.frequencies ++ [(key, [])]
              let fs := dModify fs key (fun l =>
                if l.contains (pstrip ((pick r FREQ_VAL_COLS).getD "")) then l
                else l ++ [pstrip ((pick r FREQ_VAL_COLS).getD "")])
              { ent with frequencies := fs },
              normalizeId_kShape h, by simp [airportsFreqStep, h, hm, hk, hkey, hfv], ?_⟩
            intro v
            constructor <;> rfl
          · exact Or.inl (by simp [airportsFreqStep, h, hm, hk, hkey, hfv])
        · exact Or.inl (by simp [airportsFreqStep, h, hm, hk, hkey])
    · exact Or.inl (by simp [airportsFreqStep, h, hm])

theorem dGet_airportsPost (m : List (String × AirportRec)) (k : String) :
    dGet (airportsPost m) k = (dGet m k).map (fun v =>
      { v with runways := sortByKey strOneK v.runways
               frequencies := v.frequencies.filter (fun q => ¬ q.2.isEmpty) }) := by
  induction m with
  | nil => simp [airportsPost, dGet]
  | cons p t ih =>
    by_cases h : k = p.1
    · simp [airportsPost, dGet, h]
    · simp only [airportsPost, List.map_cons, dGet, if_neg h] at ih ⊢
      exact ih

/-- The joint invariant of the airports entity map after all passes and
the post-pass: stored entities carry their key as identifier, their
runway lists are sorted and duplicate-free, and entities under a non-K
key have no children at all. -/
theorem airports_map_inv (c : AirportCols) (rows rrows frows : List Row) :
    ∀ k v, dGet (airportsPost (frows.foldl airportsFreqStep
        (rrows.foldl airportsRwyStep
          ((rows.foldl (airportsRowStep c) ⟨[], airportStats0⟩).byId)))) k = some v →
      v.identifier = k ∧
      v.runways.Pairwise (fun x y => keyLe strOneK x y = true) ∧
      v.runways.Nodup ∧
      (kShape k = false → v.runways = [] ∧ v.frequencies = []) := by
  have hQ0 : ∀ k v,
      dGet ((rows.foldl (airportsRowStep c) ⟨[], airportStats0⟩).byId) k = some v →
      v.identifier = k ∧ v.runways.Nodup ∧
        (kShape k = false → v.runways = [] ∧ v.frequencies = []) := by
    refine foldl_inv (P := fun st : AirportState =>
      ∀ k v, dGet st.byId k = some v → v.identifier = k ∧ v.runways.Nodup ∧
        (kShape k = false → v.runways = [] ∧ v.frequencies = []))
      (airportsRowStep c) ?_ rows ⟨[], airportStats0⟩ ?_
    · intro st r hst k v h
      rcases airportsRowStep_byId c st r with heq | ⟨lid, icao, nm, ci, sa, lat, lon, elev, heq⟩
      · rw [heq] at h; exact hst k v h
      · rw [heq, dGet_dUpd] at h
        split at h
        · rename_i hkl
          have hv := Option.some.inj h
          rw [← hv, hkl]
          exact ⟨rfl, List.nodup_nil, fun _ => ⟨rfl, rfl⟩⟩
        · exact hst k v h
    · intro k v h
      simp [dGet] at h
  have hQ1 : ∀ k v,
      dGet (rrows.foldl airportsRwyStep
        ((rows.foldl (airportsRowStep c) ⟨[], airportStats0⟩).byId)) k = some v →
      v.identifier = k ∧ v.runways.Nodup ∧
        (kShape k = false → v.runways = [] ∧ v.frequencies = []) := by
    refine foldl_inv (P := fun m : List (String × AirportRec) =>
      ∀ k v, dGet m k = some v → v.identifier = k ∧ v.runways.Nodup ∧
        (kShape k = false → v.runways = [] ∧ v.frequencies = []))
      airportsRwyStep ?_ rrows _ hQ0
    intro m r hst k v h
    rcases airportsRwyStep_cases m r with heq | ⟨aid, f, hks, heq, hf⟩
    · rw [heq] at h; exact hst k v h
    · rw [heq, dGet_dModify] at h
      split at h
      · rename_i hkl
        rw [Option.map_eq_some'] at h
        obtain ⟨old, hold, hv⟩ := h
        obtain ⟨hoid, hon, hoe⟩ := hst k old (hkl ▸ hold)
        obtain ⟨hfi, hff, hfr⟩ := hf old
        refine ⟨by rw [← hv, hfi, hoid], ?_, ?_⟩
        · rcases hfr with hsame | ⟨x, hx, happ⟩
          · rw [← hv, hsame]; exact hon
          · rw [← hv, happ]
            rw [List.nodup_append]
            refine ⟨hon, List.nodup_singleton x, ?_⟩
            intro y hy
            simp only [List.mem_singleton]
            intro hyx
            rw [hyx] at hy
            exact absurd (by simpa using hy) (by simpa using hx)
        · intro hkf
          exact absurd (hkl ▸ hks) (by simp [hkf])
      · exact hst k v h
  have hQ2 : ∀ k v,
      dGet (frows.foldl airportsFreqStep (rrows.foldl airportsRwyStep
        ((rows.foldl (airportsRowStep c) ⟨[], airportStats0⟩).byId))) k = some v →
      v.identifier = k ∧ v.runways.Nodup ∧
        (kShape k = false → v.runways = [] ∧ v.frequencies = []) := by
    refine foldl_inv (P := fun m : List (String × AirportRec) =>
      ∀ k v, dGet m k = some v → v.identifier = k ∧ v.runways.Nodup ∧
        (kShape k = false → v.runways = [] ∧ v.frequencies = []))
      airportsFreqStep ?_ frows _ hQ1
    intro m r hst k v h
    rcases airportsFreqStep_cases m r with heq | ⟨aid, f, hks, heq, hf⟩
    · rw [heq] at h; exact hst k v h
    · rw [heq, dGet_dModify] at h
      split at h
      · rename_i hkl
        rw [Option.map_eq_some'] at h
        obtain ⟨old, hold, hv⟩ := h
        obtain ⟨hoid, hon, _⟩ := hst k old (hkl ▸ hold)
        obtain ⟨hfi, hfr⟩ := hf old
        refine ⟨by rw [← hv, hfi, hoid], by rw [← hv, hfr]; exact hon, ?_⟩
        intro hkf
        exact absurd (hkl ▸ hks) (by simp [hkf])
      · exact hst k v h
  intro k v h
  rw [dGet_airportsPost, Option.map_eq_some'] at h
  obtain ⟨old, hold, hv⟩ := h
  obtain ⟨hoid, hon, hoe⟩ := hQ2 k old hold
  refine ⟨by rw [← hv]; exact hoid, ?_, ?_, ?_⟩
  · rw [← hv]
    exact pairwise_sortByKey strOneK old.runways
  · rw [← hv]
    exact ((sortByKey_perm strOneK old.runways).nodup_iff).2 hon
  · intro hkf
    obtain ⟨hr, hf⟩ := hoe hkf
    rw [← hv]
    constructor
    · show sortByKey strOneK old.runways = []
      rw [hr]
      rfl
    · show old.frequencies.filter _ = []
      rw [hf]
      rfl

theorem buildAirports_ok {fns : List String} {rows rrows frows : List Row}
    {out : List AirportRec} {stats : AirportStats}
    (h : buildAirports fns rows rrows frows = .ok (out, stats)) :
    ∃ c : AirportCols,
      out = (sortByKey strOneK (dKeys (airportsPost (frows.foldl airportsFreqStep
          (rrows.foldl airportsRwyStep
            ((rows.foldl (airportsRowStep c) ⟨[], airportStats0⟩).byId)))))).filterMap
        (fun k => dGet (airportsPost (frows.foldl airportsFreqStep
          (rrows.foldl airportsRwyStep
            ((rows.foldl (airportsRowStep c) ⟨[], airportStats0⟩).byId)))) k) := by
  unfold buildAirports at h
  simp only [bind, Except.bind, pure, Except.pure] at h
  repeat' split at h
  all_goals (try (cases h))
  exact ⟨⟨_, _, _, _, _, _, _, _⟩, rfl⟩

/-- C8 counterexample: two identical airway segment rows are both kept
(a structural duplicate in a child collection), and ILS component lists
stay in input order (here descending by channel), unsorted. -/
theorem c8_counterexample :
    ((buildAirways [awyBaseRow] [awySegRow, awySegRow]).1.map AwyRec.segments =
        [[awySegOf awySegRow, awySegOf awySegRow]]) ∧
    ¬ ([awySegOf awySegRow, awySegOf awySegRow] : List AwySeg).Nodup ∧
    ((buildIls [ilsBaseRow "Z"] [ilsDmeRow, ilsDmeRow2] [] []).1.map IlsRec.dme =
        [[allKeys ilsDmeRow, allKeys ilsDmeRow2]]) := by
  refine ⟨by with_unfolding_all rfl, ?_, by with_unfolding_all rfl⟩
  intro hnd
  rw [List.nodup_cons] at hnd
  exact hnd.1 (List.mem_singleton.2 rfl)

/-- C8 amended: airway segment lists are sorted by (sequence with the
`-1` sentinel, fix id, nav id) and runway-end lists by end id; airport
runway lists are sorted and duplicate-free; an absent sequence number
sorts before any nonnegative one. Airway segments, runway ends and ILS
components are appended without value-level deduplication, so those
collections may retain structurally-equal duplicates, and ILS component
lists keep input order. -/
theorem c8_amended :
    (∀ base seg : List Row, ∀ a ∈ (buildAirways base seg).1,
        a.segments.Pairwise (fun x y => keyLe segKeyK x y = true)) ∧
    (∀ rw en : List Row, ∀ e ∈ (buildRunways rw en).1,
        e.ends.Pairwise (fun x y => keyLe endKeyK x y = true)) ∧
    (∀ (fns : List String) (rows rrows frows : List Row) (out : List AirportRec)
        (stats : AirportStats), buildAirports fns rows rrows frows = .ok (out, stats) →
        ∀ a ∈ out, a.runways.Pairwise (fun x y => keyLe strOneK x y = true) ∧
          a.runways.Nodup) ∧
    (∀ (s1 s2 : AwySeg) (n : Int), s1.seq = none → s2.seq = some n → 0 ≤ n →
        keyLe segKeyK s1 s2 = true) := by
  refine ⟨?_, ?_, ?_, ?_⟩
  · intro base seg a ha
    simp only [buildAirways] at ha
    rw [List.mem_filterMap] at ha
    obtain ⟨k, _, hk⟩ := ha
    rw [Option.map_eq_some'] at hk
    obtain ⟨v, _, hv⟩ := hk
    rw [← hv]
    exact pairwise_sortByKey segKeyK v.segments
  · intro rw0 en e he
    simp only [buildRunways] at he
    rw [List.mem_filterMap] at he
    obtain ⟨k, _, hk⟩ := he
    rw [Option.map_eq_some'] at hk
    obtain ⟨v, _, hv⟩ := hk
    rw [← hv]
    exact pairwise_sortByKey endKeyK v.ends
  · intro fns rows rrows frows out stats h a ha
    obtain ⟨c, hout⟩ := buildAirports_ok h
    rw [hout, List.mem_filterMap] at ha
    obtain ⟨k, _, hget⟩ := ha
    obtain ⟨_, hpw, hnd, _⟩ := airports_map_inv c rows rrows frows k a hget
    exact ⟨hpw, hnd⟩
  · intro s1 s2 n h1 h2 hn
    have hlt : (-1 : Int) < n := by omega
    simp [keyLe, segKeyK, h1, h2, cmpSKey, cmpLex, cmpInt, hlt, ordLe]

/-- C8 amended, witness at concrete inputs. -/
theorem c8_amended_witness :
    (((buildAirways [awyBaseRow] [awySegRow]).1.headD
        ⟨"", none, none, none, []⟩).segments.Pairwise
        (fun x y => keyLe segKeyK x y = true)) ∧
    (((buildRunways [rwyBaseRow] []).1.headD
        ⟨"", "", none, none, none, none, []⟩).ends.Pairwise
        (fun x y => keyLe endKeyK x y = true)) ∧
    ((((buildAirports aptHeaders [aptRow "FIRST"] [] []).toOption.getD
          ([], airportStats0)).1.headD
        ⟨"", none, "", "", "", 0, 0, none, [], []⟩).runways.Pairwise
        (fun x y => keyLe strOneK x y = true) ∧
      (((buildAirports aptHeaders [aptRow "FIRST"] [] []).toOption.getD
          ([], airportStats0)).1.headD
        ⟨"", none, "", "", "", 0, 0, none, [], []⟩).runways.Nodup) ∧
    keyLe segKeyK ⟨none, none, none, none, none, none, none, none, none, none, none⟩
      ⟨some 10, none, none, none, none, none, none, none, none, none, none⟩ = true :=
  ⟨c8_amended.1 [awyBaseRow] [awySegRow] _ (by with_unfolding_all decide),
   c8_amended.2.1 [rwyBaseRow] [] _ (by with_unfolding_all decide),
   c8_amended.2.2.1 aptHeaders [aptRow "FIRST"] [] [] _ _ (by with_unfolding_all rfl) _
     (by with_unfolding_all decide),
   c8_amended.2.2.2 _ _ 10 rfl rfl (by decide)⟩

/-! ## Claim C10 -/

/-- C10: a child row is attached in the airports build only under a
normalized identifier of shape `K` plus two or three alphanumerics, so
every output airport whose identifier does not match that shape has an
empty runway list and an empty frequency mapping, even when child rows
bearing its identifier exist in the secondary sources. -/
theorem c10_non_k_airports_childless :
    ∀ (fns : List String) (rows rrows frows : List Row) (out : List AirportRec)
      (stats : AirportStats),
      buildAirports fns rows rrows frows = .ok (out, stats) →
      ∀ a ∈ out, kShape a.identifier = false → a.runways = [] ∧ a.frequencies = [] := by
  intro fns rows rrows frows out stats h a ha hk
  obtain ⟨c, hout⟩ := buildAirports_ok h
  rw [hout, List.mem_filterMap] at ha
  obtain ⟨k, _, hget⟩ := ha
  obtain ⟨hid, _, _, hemp⟩ := airports_map_inv c rows rrows frows k a hget
  exact hemp (hid ▸ hk)

/-- C10, witness: identifier `3M3` with a runway child row bearing
`3M3` in the secondary source still yields no children. -/
theorem c10_non_k_airports_childless_witness :
    (((buildAirports aptHeaders [aptNonKRow] [aptChildRow] []).toOption.getD
        ([], airportStats0)).1.headD
      ⟨"", none, "", "", "", 0, 0, none, [], []⟩).runways = [] ∧
    (((buildAirports aptHeaders [aptNonKRow] [aptChildRow] []).toOption.getD
        ([], airportStats0)).1.headD
      ⟨"", none, "", "", "", 0, 0, none, [], []⟩).frequencies = [] :=
  c10_non_k_airports_childless aptHeaders [aptNonKRow] [aptChildRow] [] _ _
    (by with_unfolding_all rfl) _ (by with_unfolding_all decide) (by with_unfolding_all rfl)

end RBC
